import Mathlib

/-! The xv6 system-call entry layer (`kernel/syscall.c`).

A shallow embedding of the argument fetchers (`fetchaddr`, `fetchstr`, `argraw`,
`argint`, `argaddr`, `argstr`) and of the router `syscall`, followed by theorems
about them.

Conventions of the embedding

* `uint64` values are natural numbers; arithmetic that can wrap is reduced
  `% 2^64` where the C code computes it.  `int` values are integers; a narrowing
  from `uint64` to `int` is `toInt32`.
* The implicit current process (`myproc()`) is the `proc` field of the explicit
  kernel state `Kernel`.  Every function takes the kernel state and returns a
  `Result` carrying the state it leaves behind.
* Output parameters (`uint64 *ip`, `char *buf`) are passed as their contents
  before the call and returned as their contents after it, next to the C
  return value.
* The kernel state carries a log of the interactions the code has with the
  things outside this file: calls of `copyin`, `copyinstr`, `printf`,
  `acquire`, `release`, reads of the dispatch table, calls through it, and the
  store to the return-value slot.  The log is what the theorems on "calls
  exactly once" and "never indexes" speak about.
-/

namespace Xv6

/-! ## Machine integers -/

/-- Conversion of a `uint64` to `int` (keeps the low 32 bits, two's complement). -/
def toInt32 (v : Nat) : Int :=
  if v % 2 ^ 32 < 2 ^ 31 then ((v % 2 ^ 32 : Nat) : Int)
  else ((v % 2 ^ 32 : Nat) : Int) - 2 ^ 32

/-- Conversion of an `int` to `uint64` (sign extension, i.e. reduction mod `2^64`). -/
def toUint64 (i : Int) : Nat := (i % 2 ^ 64).toNat

/-! ## Data model -/

/-- The trap-frame slots this file touches: arguments `a0..a5` and call number `a7`. -/
structure Trapframe where
  a0 : Nat
  a1 : Nat
  a2 : Nat
  a3 : Nat
  a4 : Nat
  a5 : Nat
  a7 : Nat
  deriving DecidableEq, Repr

/-- The fields of `struct proc` this file reads or writes.  `pagetable` is the
handle passed on to the copy primitives; `trace` is the bit pattern of the mask. -/
structure Proc where
  trapframe : Trapframe
  sz : Nat
  pagetable : Nat
  trace : Nat
  pid : Int
  name : String
  deriving DecidableEq, Repr

/-- An argument handed to `printf`. -/
inductive PArg where
  | int (v : Int)
  | uint64 (v : Nat)
  | str (s : String)
  deriving DecidableEq, Repr

/-- One interaction of the code with its surroundings. -/
inductive Event where
  /-- A call `copyin(pagetable, dst, srcva, len)`. -/
  | copyin (pagetable srcva len : Nat)
  /-- A call `copyinstr(pagetable, dst, srcva, max)`. -/
  | copyinstr (pagetable srcva max : Nat)
  /-- An evaluation of `syscalls[i]`. -/
  | index (i : Int)
  /-- A call through the pointer read from `syscalls[i]`. -/
  | call (i : Int)
  /-- The store `p->trapframe->a0 = v`. -/
  | setA0 (v : Nat)
  /-- The call `acquire(&p->lock)`. -/
  | acquire
  /-- The call `release(&p->lock)`. -/
  | release
  /-- A call `printf(fmt, args...)`. -/
  | printf (fmt : String) (args : List PArg)
  deriving DecidableEq, Repr

/-- Kernel state: the current process and the log of interactions, oldest first. -/
structure Kernel where
  proc : Proc
  log : List Event
  deriving DecidableEq, Repr

/-- Append an event to the log. -/
def Kernel.emit (k : Kernel) (e : Event) : Kernel :=
  { k with log := k.log ++ [e] }

/-- How a piece of kernel code ends.  The `panic` of `kernel/printf.c` is not among the
sources; as the spec has it, it terminates the kernel with a diagnostic, so code that
calls it ends there and the statements after the call are never reached. -/
inductive Result (α : Type) where
  /-- It returned `v`. -/
  | ok (v : α) (k : Kernel)
  /-- It called `panic(msg)`, which halts the kernel and never returns. -/
  | panic (msg : String) (k : Kernel)
  /-- A handler it called never gave control back. -/
  | noreturn (k : Kernel)
  /-- It read the dispatch table outside its bounds or called through a null pointer. -/
  | undef (k : Kernel)
  deriving DecidableEq, Repr

/-- Sequencing: continue with `f` when the first part returned. -/
def Result.bind {α β : Type} (r : Result α) (f : α → Kernel → Result β) : Result β :=
  match r with
  | .ok v k => f v k
  | .panic msg k => .panic msg k
  | .noreturn k => .noreturn k
  | .undef k => .undef k

/-- The kernel state a result carries. -/
def Result.kernel {α : Type} : Result α → Kernel
  | .ok _ k => k
  | .panic _ k => k
  | .noreturn k => k
  | .undef k => k

/-- The external `copyin(pagetable, dst, srcva, len)`: given the page table, the
contents of `dst` before the call, the user address and the length, it yields
its return value and the contents of `dst` after the call. -/
abbrev CopyIn := Nat → List Nat → Nat → Nat → Int × List Nat

/-- The external `copyinstr(pagetable, dst, srcva, max)`, same shape as `CopyIn`. -/
abbrev CopyInStr := Nat → List Nat → Nat → Nat → Int × List Nat

/-- A system-call handler `uint64 (*)(void)`: from the current process it either
returns a value together with the process as it left it, or never returns. -/
abbrev Handler := Proc → Option (Proc × Nat)

/-! ## Argument fetchers -/

/-- `fetchaddr(addr, ip)`: fetch the `uint64` at `addr` from the current process. -/
def fetchaddr (copyin : CopyIn) (addr : Nat) (ip : List Nat) (k : Kernel) :
    Result (Int × List Nat) :=
  let p := k.proc
  if addr ≥ p.sz ∨ (addr + 8) % 2 ^ 64 > p.sz then
    .ok (-1, ip) k
  else
    let r := copyin p.pagetable ip addr 8
    let k1 := k.emit (.copyin p.pagetable addr 8)
    if r.1 ≠ 0 then .ok (-1, r.2) k1
    else .ok (0, r.2) k1

/-- Modelled from the spec: `strlen` of `kernel/string.c` is not among the sources;
it counts the bytes in front of the first zero byte. -/
def strlen (buf : List Nat) : Int := ((buf.takeWhile (fun b => b ≠ 0)).length : Nat)

/-- `fetchstr(addr, buf, max)`: fetch the nul-terminated string at `addr`. -/
def fetchstr (copyinstr : CopyInStr) (addr : Nat) (buf : List Nat) (max : Int) (k : Kernel) :
    Result (Int × List Nat) :=
  let p := k.proc
  let r := copyinstr p.pagetable buf addr (toUint64 max)
  let k1 := k.emit (.copyinstr p.pagetable addr (toUint64 max))
  if r.1 < 0 then .ok (r.1, r.2) k1
  else .ok (strlen r.2, r.2) k1

/-- `argraw(n)`: the raw value of argument slot `n`; `panic("argraw")` otherwise. -/
def argraw (n : Int) (k : Kernel) : Result Nat :=
  let p := k.proc
  if n = 0 then .ok p.trapframe.a0 k
  else if n = 1 then .ok p.trapframe.a1 k
  else if n = 2 then .ok p.trapframe.a2 k
  else if n = 3 then .ok p.trapframe.a3 k
  else if n = 4 then .ok p.trapframe.a4 k
  else if n = 5 then .ok p.trapframe.a5 k
  else .panic "argraw" k

/-- `argint(n, ip)`: returns the C return value and the `int` stored in `*ip`. -/
def argint (n : Int) (k : Kernel) : Result (Int × Int) :=
  (argraw n k).bind fun v k1 => .ok (0, toInt32 v) k1

/-- `argaddr(n, ip)`: returns the C return value and the `uint64` stored in `*ip`. -/
def argaddr (n : Int) (k : Kernel) : Result (Int × Nat) :=
  (argraw n k).bind fun v k1 => .ok (0, v) k1

/-- `argstr(n, buf, max)`: fetch argument `n` as a nul-terminated string. -/
def argstr (copyinstr : CopyInStr) (n : Int) (buf : List Nat) (max : Int) (k : Kernel) :
    Result (Int × List Nat) :=
  (argaddr n k).bind fun r k1 =>
    if r.1 < 0 then .ok (-1, buf) k1
    else fetchstr copyinstr r.2 buf max k1

/-! ## The dispatch table -/

/-- The call numbers `SYS_*` of `kernel/syscall.h`, which is not among the sources:
they are taken as a parameter. -/
structure SyscallNumbers where
  SYS_fork : Nat
  SYS_exit : Nat
  SYS_wait : Nat
  SYS_pipe : Nat
  SYS_read : Nat
  SYS_kill : Nat
  SYS_exec : Nat
  SYS_fstat : Nat
  SYS_chdir : Nat
  SYS_dup : Nat
  SYS_getpid : Nat
  SYS_sbrk : Nat
  SYS_sleep : Nat
  SYS_uptime : Nat
  SYS_open : Nat
  SYS_write : Nat
  SYS_mknod : Nat
  SYS_unlink : Nat
  SYS_link : Nat
  SYS_mkdir : Nat
  SYS_close : Nat
  SYS_trace : Nat
  SYS_sysinfo : Nat
  deriving DecidableEq, Repr

/-- The handlers declared `extern uint64 sys_*(void)`; their bodies live in other files. -/
structure Handlers where
  sys_chdir : Handler
  sys_close : Handler
  sys_dup : Handler
  sys_exec : Handler
  sys_exit : Handler
  sys_fork : Handler
  sys_fstat : Handler
  sys_getpid : Handler
  sys_kill : Handler
  sys_link : Handler
  sys_mkdir : Handler
  sys_mknod : Handler
  sys_open : Handler
  sys_pipe : Handler
  sys_read : Handler
  sys_sbrk : Handler
  sys_sleep : Handler
  sys_unlink : Handler
  sys_wait : Handler
  sys_write : Handler
  sys_uptime : Handler
  sys_trace : Handler
  sys_sysinfo : Handler

/-- One designated initializer `[i] h` of an array of unspecified size: the array
grows to hold index `i`, slots never named stay null. -/
def designate (tbl : List (Option Handler)) (i : Nat) (h : Handler) : List (Option Handler) :=
  (tbl ++ List.replicate (i + 1 - tbl.length) none).set i (some h)

/-- The table `syscalls[]`, built by its designated initializers in source order. -/
def syscalls (c : SyscallNumbers) (h : Handlers) : List (Option Handler) :=
  [ (c.SYS_fork, h.sys_fork), (c.SYS_exit, h.sys_exit), (c.SYS_wait, h.sys_wait),
    (c.SYS_pipe, h.sys_pipe), (c.SYS_read, h.sys_read), (c.SYS_kill, h.sys_kill),
    (c.SYS_exec, h.sys_exec), (c.SYS_fstat, h.sys_fstat), (c.SYS_chdir, h.sys_chdir),
    (c.SYS_dup, h.sys_dup), (c.SYS_getpid, h.sys_getpid), (c.SYS_sbrk, h.sys_sbrk),
    (c.SYS_sleep, h.sys_sleep), (c.SYS_uptime, h.sys_uptime), (c.SYS_open, h.sys_open),
    (c.SYS_write, h.sys_write), (c.SYS_mknod, h.sys_mknod), (c.SYS_unlink, h.sys_unlink),
    (c.SYS_link, h.sys_link), (c.SYS_mkdir, h.sys_mkdir), (c.SYS_close, h.sys_close),
    (c.SYS_trace, h.sys_trace), (c.SYS_sysinfo, h.sys_sysinfo) ].foldl
    (fun tbl e => designate tbl e.1 e.2) []

/-- The read `syscalls[i]`: `none` when `i` is outside the array, otherwise the
slot, which is `none` for a null pointer. -/
def readSlot (tbl : List (Option Handler)) (i : Int) : Option (Option Handler) :=
  if 0 ≤ i then tbl[i.toNat]? else none

/-! ## The router -/

/-- The condition `num > 0 && num < NELEM(syscalls) && syscalls[num]`, evaluated
left to right with short circuit.  `NELEM` yields an unsigned 64-bit count, so the
second comparison is made on `num` converted to `uint64`. -/
def dispatchable (tbl : List (Option Handler)) (num : Int) (k : Kernel) : Result Bool :=
  if 0 < num then
    if toUint64 num < tbl.length then
      match readSlot tbl num with
      | some slot => .ok slot.isSome (k.emit (.index num))
      | none => .undef (k.emit (.index num))
    else .ok false k
  else .ok false k

/-- The call `syscalls[num]()`: read the slot, call through it, and take the
`uint64` the handler returns. -/
def callSlot (tbl : List (Option Handler)) (num : Int) (k : Kernel) : Result Nat :=
  let k1 := k.emit (.index num)
  match readSlot tbl num with
  | some (some h) =>
    let k2 := k1.emit (.call num)
    match h k2.proc with
    | some (p1, r) => .ok (r % 2 ^ 64) { k2 with proc := p1 }
    | none => .noreturn k2
  | _ => .undef k1

/-- The store `p->trapframe->a0 = v`. -/
def storeA0 (v : Nat) (k : Kernel) : Kernel :=
  { proc := { k.proc with trapframe := { k.proc.trapframe with a0 := v } },
    log := k.log ++ [.setA0 v] }

/-- The `switch (num)` of the trace block: the format string of the matching
`case`, or `none` when no case matches (the switch has no default). -/
def traceCase (c : SyscallNumbers) (num : Int) : Option String :=
  if num = (c.SYS_fork : Int) then some "sys_fork(%d)"
  else if num = (c.SYS_exit : Int) then some "sys_exit(%d)"
  else if num = (c.SYS_wait : Int) then some "sys_wait(%d)"
  else if num = (c.SYS_pipe : Int) then some "sys_pipe(%d)"
  else if num = (c.SYS_read : Int) then some "sys_read(%d)"
  else if num = (c.SYS_kill : Int) then some "sys_kill(%d)"
  else if num = (c.SYS_exec : Int) then some "sys_exec(%d)"
  else if num = (c.SYS_fstat : Int) then some "sys_fstat(%d)"
  else if num = (c.SYS_chdir : Int) then some "sys_chdir(%d)"
  else if num = (c.SYS_dup : Int) then some "sys_dup(%d)"
  else if num = (c.SYS_getpid : Int) then some "sys_getpid(%d)"
  else if num = (c.SYS_sbrk : Int) then some "sys_sbrk(%d)"
  else if num = (c.SYS_sleep : Int) then some "sys_sleep(%d)"
  else if num = (c.SYS_uptime : Int) then some "sys_uptime(%d)"
  else if num = (c.SYS_open : Int) then some "sys_open(%d)"
  else if num = (c.SYS_write : Int) then some "sys_write(%d)"
  else if num = (c.SYS_mknod : Int) then some "sys_mknod(%d)"
  else if num = (c.SYS_unlink : Int) then some "sys_unlink(%d)"
  else if num = (c.SYS_link : Int) then some "sys_link(%d)"
  else if num = (c.SYS_mkdir : Int) then some "sys_mkdir(%d)"
  else if num = (c.SYS_close : Int) then some "sys_close(%d)"
  else if num = (c.SYS_trace : Int) then some "sys_trace(%d)"
  else none

/-- The block guarded by `p->trace >> num & 1`, run after the result is stored. -/
def traceBlock (c : SyscallNumbers) (num arg_first : Int) (ret : Nat) (k : Kernel) : Kernel :=
  if (k.proc.trace >>> num.toNat) &&& 1 ≠ 0 then
    let k1 := ((k.emit .acquire).emit (.printf "%d: " [.int k.proc.pid])).emit .release
    let k2 :=
      match traceCase c num with
      | some fmt => k1.emit (.printf fmt [.int arg_first])
      | none => k1
    k2.emit (.printf " -> %d\n" [.uint64 ret])
  else k

/-- The `else` branch of `syscall`: report the unknown call and store `-1`. -/
def unknownCall (num : Int) (k : Kernel) : Kernel :=
  let k1 := k.emit
    (.printf "%d %s: unknown sys call %d\n" [.int k.proc.pid, .str k.proc.name, .int num])
  storeA0 (toUint64 (-1)) k1

/-- `syscall()`: route the call whose number is in `a7`. -/
def syscall (c : SyscallNumbers) (tbl : List (Option Handler)) (k : Kernel) : Result Unit :=
  let num : Int := toInt32 k.proc.trapframe.a7
  (dispatchable tbl num k).bind fun b k1 =>
    if b then
      (argint 0 k1).bind fun a k2 =>
        let arg_first : Int := a.2
        (callSlot tbl num k2).bind fun ret k3 =>
          let k4 := storeA0 ret k3
          .ok () (traceBlock c num arg_first ret k4)
    else
      .ok () (unknownCall num k1)

/-! ## Reading the log -/

/-- The table indices read, in order. -/
def indexReads (log : List Event) : List Int :=
  log.filterMap fun e => match e with
    | .index i => some i
    | _ => none

/-- The table slots called through, in order. -/
def callsMade (log : List Event) : List Int :=
  log.filterMap fun e => match e with
    | .call i => some i
    | _ => none

/-- The values stored to the return-value slot, in order. -/
def storesA0 (log : List Event) : List Nat :=
  log.filterMap fun e => match e with
    | .setA0 v => some v
    | _ => none

/-- The `printf` calls made, in order. -/
def printfs (log : List Event) : List (String × List PArg) :=
  log.filterMap fun e => match e with
    | .printf fmt args => some (fmt, args)
    | _ => none

/-! ## Concrete inputs used as witnesses -/

/-- The customary xv6 numbering, `SYS_fork = 1` up to `SYS_sysinfo = 23`. -/
def exNumbers : SyscallNumbers :=
  ⟨1, 2, 3, 4, 5, 6, 7, 8, 9, 10, 11, 12, 13, 14, 15, 16, 17, 18, 19, 20, 21, 22, 23⟩

/-- A process of size 4096 named `sh`, pid 3, about to make call number 1. -/
def exProc : Proc :=
  { trapframe := { a0 := 10, a1 := 11, a2 := 12, a3 := 13, a4 := 14, a5 := 15, a7 := 1 },
    sz := 4096, pagetable := 7, trace := 0, pid := 3, name := "sh" }

/-- The process `exProc` with another call number in `a7`. -/
def exProcCalling (a7 : Nat) : Proc :=
  { exProc with trapframe := { exProc.trapframe with a7 := a7 } }

/-- A handler that returns 42 and leaves the process alone. -/
def exHandler : Handler := fun p => some (p, 42)

/-- A table of length 3: slot 0 and slot 2 empty, slot 1 populated. -/
def exTable : List (Option Handler) := [none, some exHandler, none]

/-- A table of length 22 with entries for the numbers 1..21. -/
def exTable22 : List (Option Handler) := none :: List.replicate 21 (some exHandler)

/-! ## The string copy primitive -/

/-- User memory as the copy primitives see it: for a page table and a user virtual
address, the byte stored there, or `none` when the page is not valid for the user. -/
abbrev UserMem := Nat → Nat → Option Nat

/-- Modelled from the spec: the scan of `copyinstr` (`kernel/vm.c`, not among the
sources).  It reads at most `max` bytes from `srcva` on, collecting them; it stops with
success after the first null byte, which is copied too, and fails when a page is invalid
or when `max` bytes went by without a null byte. -/
def copyinstrScan (mem : Nat → Option Nat) : Nat → Nat → List Nat → Int × List Nat
  | 0, _, acc => (-1, acc)
  | max + 1, srcva, acc =>
    match mem srcva with
    | none => (-1, acc)
    | some b =>
      if b = 0 then (0, acc ++ [0])
      else copyinstrScan mem max (srcva + 1) (acc ++ [b])

/-- Modelled from the spec: `copyinstr` of `kernel/vm.c`, which is not among the
sources.  The bytes collected by the scan overwrite the front of `dst`; the result is 0
on success and -1 on failure. -/
def copyinstrRef (mem : UserMem) : CopyInStr :=
  fun pagetable dst srcva max =>
    let r := copyinstrScan (mem pagetable) max srcva []
    (r.1, r.2 ++ dst.drop r.2.length)

/-- A `copyin` that always succeeds and delivers the bytes 1..8. -/
def exCopyin : CopyIn := fun _ _ _ _ => (0, [1, 2, 3, 4, 5, 6, 7, 8])

/-- The process `exProc` with another size. -/
def exProcSized (sz : Nat) : Proc := { exProc with sz := sz }

/-- User memory in which page table 7 holds the string "hi" and its terminator at
addresses 16, 17, 18, the bytes 1, 2 at addresses 32, 33, and nothing else. -/
def exMem : UserMem := fun pagetable va =>
  if pagetable = 7 then
    if va = 16 then some 104
    else if va = 17 then some 105
    else if va = 18 then some 0
    else if va = 32 then some 1
    else if va = 33 then some 2
    else none
  else none

/-- A kernel buffer of eight bytes, all `0xff`. -/
def exBuf : List Nat := List.replicate 8 255

/-! ## Trace output and further concrete inputs -/

/-- The number of line ends (character 10) in the formats of the `printf` calls of a log. -/
def lineEnds (log : List Event) : Nat :=
  ((printfs log).map fun p => (p.1.toList.filter fun ch => ch = Char.ofNat 10).length).sum

/-- The process `exProc` with chosen first argument, call number and trace mask. -/
def exProcWith (a0 a7 mask : Nat) : Proc :=
  { exProc with trapframe := { exProc.trapframe with a0 := a0, a7 := a7 }, trace := mask }

/-- All 23 handlers taken to be `exHandler`. -/
def exHandlers : Handlers :=
  ⟨exHandler, exHandler, exHandler, exHandler, exHandler, exHandler, exHandler, exHandler,
    exHandler, exHandler, exHandler, exHandler, exHandler, exHandler, exHandler, exHandler,
    exHandler, exHandler, exHandler, exHandler, exHandler, exHandler, exHandler⟩

/-- The kernel state `k` with another value in the call-number slot `a7`. -/
def Kernel.withA7 (k : Kernel) (a7 : Nat) : Kernel :=
  { proc := { k.proc with trapframe := { k.proc.trapframe with a7 := a7 } }, log := k.log }

/-- The names of the calls, read off the dispatch table: the call whose number is
`SYS_x` is served by the handler `sys_x`, and `sys_x` is its name.  Listed are the 22
calls for which the trace block has a `case`. -/
def traceNames (c : SyscallNumbers) : List (Nat × String) :=
  [ (c.SYS_fork, "sys_fork"), (c.SYS_exit, "sys_exit"), (c.SYS_wait, "sys_wait"),
    (c.SYS_pipe, "sys_pipe"), (c.SYS_read, "sys_read"), (c.SYS_kill, "sys_kill"),
    (c.SYS_exec, "sys_exec"), (c.SYS_fstat, "sys_fstat"), (c.SYS_chdir, "sys_chdir"),
    (c.SYS_dup, "sys_dup"), (c.SYS_getpid, "sys_getpid"), (c.SYS_sbrk, "sys_sbrk"),
    (c.SYS_sleep, "sys_sleep"), (c.SYS_uptime, "sys_uptime"), (c.SYS_open, "sys_open"),
    (c.SYS_write, "sys_write"), (c.SYS_mknod, "sys_mknod"), (c.SYS_unlink, "sys_unlink"),
    (c.SYS_link, "sys_link"), (c.SYS_mkdir, "sys_mkdir"), (c.SYS_close, "sys_close"),
    (c.SYS_trace, "sys_trace") ]

/-- A handler that never returns, as `sys_exit` does. -/
def exHandlerNoReturn : Handler := fun _ => none

/-- A table of length 2 whose slot 1 holds `exHandlerNoReturn`. -/
def exTableNoReturn : List (Option Handler) := [none, some exHandlerNoReturn]

end Xv6

/-! ## Auxiliary lemmas -/

namespace Xv6

theorem toInt32_lt (v : Nat) : toInt32 v < 2 ^ 31 := by
  unfold toInt32
  split <;> omega

theorem toInt32_ge (v : Nat) : -(2 ^ 31) ≤ toInt32 v := by
  unfold toInt32
  split <;> omega

theorem toInt32_of_lt (v : Nat) (h : v < 2 ^ 31) : toInt32 v = v := by
  unfold toInt32
  have h1 : v % 2 ^ 32 = v := Nat.mod_eq_of_lt (by omega)
  rw [h1, if_pos h]

theorem toUint64_of_nonneg (i : Int) (h0 : 0 ≤ i) (h : i < 2 ^ 64) : toUint64 i = i.toNat := by
  unfold toUint64
  rw [Int.emod_eq_of_lt h0 h]

theorem toUint64_neg_one : toUint64 (-1) = 2 ^ 64 - 1 := by decide

/-- In range as the code tests it means in range as integers, for an `int`. -/
theorem int_index_in_range (tbl : List (Option Handler)) (num : Int)
    (hpos : 0 < num) (hsmall : num < 2 ^ 31) :
    toUint64 num < tbl.length ↔ num < tbl.length := by
  rw [toUint64_of_nonneg num (by omega) (by omega)]
  omega

theorem readSlot_in_range (tbl : List (Option Handler)) (num : Int)
    (hpos : 0 < num) (hlt : num < tbl.length) :
    ∃ slot, readSlot tbl num = some slot := by
  have h : num.toNat < tbl.length := by omega
  refine ⟨tbl[num.toNat], ?_⟩
  unfold readSlot
  rw [if_pos (by omega), List.getElem?_eq_getElem h]

theorem readSlot_some_lt (tbl : List (Option Handler)) (num : Int) (slot : Option Handler)
    (h : readSlot tbl num = some slot) : 0 ≤ num ∧ num < tbl.length := by
  unfold readSlot at h
  split at h
  · rename_i h0
    have := (List.getElem?_eq_some_iff.mp h).1
    omega
  · cases h

@[simp] theorem Result.bind_ok {α β : Type} (v : α) (k : Kernel) (f : α → Kernel → Result β) :
    (Result.ok v k).bind f = f v k := rfl

@[simp] theorem argraw_zero (k : Kernel) : argraw 0 k = .ok k.proc.trapframe.a0 k := by
  simp [argraw]

@[simp] theorem argint_zero (k : Kernel) :
    argint 0 k = .ok (0, toInt32 k.proc.trapframe.a0) k := by
  simp [argint]

@[simp] theorem emit_proc (k : Kernel) (e : Event) : (k.emit e).proc = k.proc := rfl

@[simp] theorem emit_log (k : Kernel) (e : Event) : (k.emit e).log = k.log ++ [e] := rfl

@[simp] theorem storeA0_log (v : Nat) (k : Kernel) : (storeA0 v k).log = k.log ++ [.setA0 v] := rfl

@[simp] theorem storeA0_a0 (v : Nat) (k : Kernel) : (storeA0 v k).proc.trapframe.a0 = v := rfl

theorem indexReads_append (a b : List Event) :
    indexReads (a ++ b) = indexReads a ++ indexReads b := by
  simp [indexReads, List.filterMap_append]

theorem callsMade_append (a b : List Event) :
    callsMade (a ++ b) = callsMade a ++ callsMade b := by
  simp [callsMade, List.filterMap_append]

theorem storesA0_append (a b : List Event) :
    storesA0 (a ++ b) = storesA0 a ++ storesA0 b := by
  simp [storesA0, List.filterMap_append]

theorem printfs_append (a b : List Event) :
    printfs (a ++ b) = printfs a ++ printfs b := by
  simp [printfs, List.filterMap_append]

theorem unknownCall_log (num : Int) (k : Kernel) :
    (unknownCall num k).log = k.log ++
      [.printf "%d %s: unknown sys call %d\n" [.int k.proc.pid, .str k.proc.name, .int num],
        .setA0 (2 ^ 64 - 1)] := by
  simp [unknownCall, toUint64_neg_one]

theorem traceBlock_proc (c : SyscallNumbers) (num a : Int) (ret : Nat) (k : Kernel) :
    (traceBlock c num a ret k).proc = k.proc := by
  unfold traceBlock
  split
  · cases traceCase c num <;> rfl
  · rfl

/-- The trace block only appends `acquire`, `release` and `printf` events. -/
theorem traceBlock_log (c : SyscallNumbers) (num a : Int) (ret : Nat) (k : Kernel) :
    ∃ evs, (traceBlock c num a ret k).log = k.log ++ evs ∧
      indexReads evs = [] ∧ callsMade evs = [] ∧ storesA0 evs = [] := by
  unfold traceBlock
  split
  · cases htc : traceCase c num with
    | none => exact ⟨[.acquire, .printf "%d: " [.int k.proc.pid], .release,
        .printf " -> %d\n" [.uint64 ret]], by simp, rfl, rfl, rfl⟩
    | some fmt => exact ⟨[.acquire, .printf "%d: " [.int k.proc.pid], .release,
        .printf fmt [.int a], .printf " -> %d\n" [.uint64 ret]], by simp, rfl, rfl, rfl⟩
  · exact ⟨[], by simp, rfl, rfl, rfl⟩

/-- The router outside the range `0 < num < NELEM(syscalls)`: the table is not read. -/
theorem syscall_out_of_range (c : SyscallNumbers) (tbl : List (Option Handler)) (k : Kernel)
    (h : ¬ (0 < toInt32 k.proc.trapframe.a7 ∧ toInt32 k.proc.trapframe.a7 < tbl.length)) :
    syscall c tbl k = .ok () (unknownCall (toInt32 k.proc.trapframe.a7) k) := by
  unfold syscall dispatchable
  by_cases hpos : 0 < toInt32 k.proc.trapframe.a7
  · have hr := int_index_in_range tbl _ hpos (toInt32_lt _)
    have : ¬ toUint64 (toInt32 k.proc.trapframe.a7) < tbl.length := by
      rw [hr]; exact fun hlt => h ⟨hpos, hlt⟩
    simp [hpos, this]
  · simp [hpos]

/-- The router on an empty slot: the slot is read once, then the call is reported. -/
theorem syscall_empty_slot (c : SyscallNumbers) (tbl : List (Option Handler)) (k : Kernel)
    (hpos : 0 < toInt32 k.proc.trapframe.a7)
    (hlt : toInt32 k.proc.trapframe.a7 < tbl.length)
    (hslot : readSlot tbl (toInt32 k.proc.trapframe.a7) = some none) :
    syscall c tbl k = .ok () (unknownCall (toInt32 k.proc.trapframe.a7)
      (k.emit (.index (toInt32 k.proc.trapframe.a7)))) := by
  unfold syscall dispatchable
  have hr := (int_index_in_range tbl _ hpos (toInt32_lt _)).mpr hlt
  simp [hpos, hr, hslot]

/-- The router on a populated slot, up to the call through the table. -/
theorem syscall_populated (c : SyscallNumbers) (tbl : List (Option Handler)) (k : Kernel)
    (h : Handler)
    (hpos : 0 < toInt32 k.proc.trapframe.a7)
    (hlt : toInt32 k.proc.trapframe.a7 < tbl.length)
    (hslot : readSlot tbl (toInt32 k.proc.trapframe.a7) = some (some h)) :
    syscall c tbl k =
      match h k.proc with
      | some (p1, r) =>
        .ok () (traceBlock c (toInt32 k.proc.trapframe.a7) (toInt32 k.proc.trapframe.a0)
          (r % 2 ^ 64)
          (storeA0 (r % 2 ^ 64)
            { proc := p1,
              log := k.log ++ [.index (toInt32 k.proc.trapframe.a7),
                .index (toInt32 k.proc.trapframe.a7), .call (toInt32 k.proc.trapframe.a7)] }))
      | none =>
        .noreturn { proc := k.proc,
                    log := k.log ++ [.index (toInt32 k.proc.trapframe.a7),
                      .index (toInt32 k.proc.trapframe.a7),
                      .call (toInt32 k.proc.trapframe.a7)] } := by
  unfold syscall dispatchable
  have hr := (int_index_in_range tbl _ hpos (toInt32_lt _)).mpr hlt
  simp only [hpos, hr, hslot, if_true, Result.bind_ok, Option.isSome_some, argint_zero,
    callSlot, emit_proc]
  cases hh : h k.proc with
  | none => simp [Result.bind, Kernel.emit]
  | some pr =>
    obtain ⟨p1, r⟩ := pr
    simp [Result.bind, Kernel.emit]

end Xv6

namespace Xv6

/-- The scan succeeds on a terminated string that fits, and collects it with its null. -/
theorem copyinstrScan_terminated (mem : Nat → Option Nat) (s : List Nat) :
    ∀ (max va : Nat) (acc : List Nat), s.length < max → (∀ b ∈ s, b ≠ 0) →
      (∀ i, i < s.length → mem (va + i) = s[i]?) → mem (va + s.length) = some 0 →
      copyinstrScan mem max va acc = (0, acc ++ s ++ [0]) := by
  induction s with
  | nil =>
    intro max va acc hlen _ _ hend
    cases max with
    | zero => cases hlen
    | succ m =>
      simp only [List.length_nil, Nat.add_zero] at hend
      simp [copyinstrScan, hend]
  | cons b t ih =>
    intro max va acc hlen hnz hmem hend
    cases max with
    | zero => cases hlen
    | succ m =>
      have hb : mem va = some b := by
        have := hmem 0 (by simp)
        simpa using this
      have hb0 : b ≠ 0 := hnz b (by simp)
      have hrec := ih m (va + 1) (acc ++ [b]) (by simpa using hlen)
        (fun x hx => hnz x (by simp [hx]))
        (fun i hi => by
          have := hmem (i + 1) (by simpa using hi)
          simpa [Nat.add_assoc, Nat.add_comm 1 i] using this)
        (by simpa [Nat.add_assoc, Nat.add_comm 1 t.length] using hend)
      simp only [copyinstrScan, hb, hb0, if_false]
      rw [hrec]
      simp

/-- The scan fails when none of the first `max` bytes is a readable null. -/
theorem copyinstrScan_unterminated (mem : Nat → Option Nat) :
    ∀ (max va : Nat) (acc : List Nat), (∀ i, i < max → mem (va + i) ≠ some 0) →
      (copyinstrScan mem max va acc).1 = -1 := by
  intro max
  induction max with
  | zero =>
    intro va acc _
    rfl
  | succ m ih =>
    intro va acc hno
    unfold copyinstrScan
    cases hb : mem va with
    | none => rfl
    | some b =>
      have hb0 : b ≠ 0 := by
        intro h0
        have := hno 0 (by omega)
        simp [hb, h0] at this
      simp only [hb0, if_false]
      exact ih (va + 1) (acc ++ [b]) (fun i hi => by
        have := hno (i + 1) (by omega)
        simpa [Nat.add_assoc, Nat.add_comm 1 i] using this)

theorem strlen_terminated (s rest : List Nat) (hnz : ∀ b ∈ s, b ≠ 0) :
    strlen (s ++ 0 :: rest) = s.length := by
  unfold strlen
  rw [List.takeWhile_append_of_pos (by simpa using hnz)]
  simp

theorem strlen_nonneg (buf : List Nat) : 0 ≤ strlen buf := by
  unfold strlen
  exact Int.ofNat_nonneg _

end Xv6

/-! ## The router: dispatch and the unknown-call path -/

namespace Xv6

/-- C1: when the call number `num` (the `int` read from `a7`) satisfies
`0 < num < NELEM(syscalls)` and `syscalls[num]` holds a handler `h`, `syscall` calls
through slot `num` exactly once and through no other slot; if `h` returns `r`, then
`syscall` returns and the process is the one `h` left with `a0` overwritten by `r` as a
64-bit value; if `h` never returns, neither does `syscall`. -/
theorem syscall_dispatch_populated (c : SyscallNumbers) (tbl : List (Option Handler))
    (k : Kernel) (h : Handler)
    (hpos : 0 < toInt32 k.proc.trapframe.a7)
    (hlt : toInt32 k.proc.trapframe.a7 < tbl.length)
    (hslot : readSlot tbl (toInt32 k.proc.trapframe.a7) = some (some h)) :
    callsMade (syscall c tbl k).kernel.log
        = callsMade k.log ++ [toInt32 k.proc.trapframe.a7] ∧
      (∀ p1 r, h k.proc = some (p1, r) →
        ∃ k', syscall c tbl k = .ok () k' ∧
          k'.proc = { p1 with trapframe := { p1.trapframe with a0 := r % 2 ^ 64 } } ∧
          k'.proc.trapframe.a0 = r % 2 ^ 64 ∧
          storesA0 k'.log = storesA0 k.log ++ [r % 2 ^ 64]) ∧
      (h k.proc = none → ∃ k', syscall c tbl k = .noreturn k' ∧ k'.proc = k.proc) := by
  have hs := syscall_populated c tbl k h hpos hlt hslot
  cases hh : h k.proc with
  | none =>
    rw [hh] at hs
    refine ⟨?_, ?_, ?_⟩
    · rw [hs]
      simp [Result.kernel, callsMade, List.filterMap_append]
    · intro p1 r hc
      cases hc
    · intro _
      exact ⟨_, hs, rfl⟩
  | some pr =>
    obtain ⟨p1, r⟩ := pr
    rw [hh] at hs
    simp only at hs
    obtain ⟨evs, hlog, _, hcalls, hstores⟩ :=
      traceBlock_log c (toInt32 k.proc.trapframe.a7) (toInt32 k.proc.trapframe.a0) (r % 2 ^ 64)
        (storeA0 (r % 2 ^ 64)
          { proc := p1,
            log := k.log ++ [.index (toInt32 k.proc.trapframe.a7),
              .index (toInt32 k.proc.trapframe.a7), .call (toInt32 k.proc.trapframe.a7)] })
    refine ⟨?_, ?_, ?_⟩
    · rw [hs]
      simp only [Result.kernel]
      rw [hlog]
      simp [callsMade, List.filterMap_append] at hcalls ⊢
      exact hcalls
    · intro p1' r' hc
      cases hc
      refine ⟨_, hs, ?_, ?_, ?_⟩
      · rw [traceBlock_proc]
        rfl
      · rw [traceBlock_proc]
        rfl
      · rw [hlog]
        simp [storesA0, List.filterMap_append] at hstores ⊢
        exact hstores
    · intro hc
      cases hc

/-- Witness for C1: call number 1 on the table `exTable`, whose slot 1 holds `exHandler`. -/
theorem syscall_dispatch_populated_witness :
    callsMade (syscall exNumbers exTable ⟨exProc, []⟩).kernel.log
        = callsMade [] ++ [toInt32 exProc.trapframe.a7] ∧
      (∀ p1 r, exHandler exProc = some (p1, r) →
        ∃ k', syscall exNumbers exTable ⟨exProc, []⟩ = .ok () k' ∧
          k'.proc = { p1 with trapframe := { p1.trapframe with a0 := r % 2 ^ 64 } } ∧
          k'.proc.trapframe.a0 = r % 2 ^ 64 ∧
          storesA0 k'.log = storesA0 [] ++ [r % 2 ^ 64]) ∧
      (exHandler exProc = none →
        ∃ k', syscall exNumbers exTable ⟨exProc, []⟩ = .noreturn k' ∧ k'.proc = exProc) :=
  syscall_dispatch_populated exNumbers exTable ⟨exProc, []⟩ exHandler
    (by decide) (by decide) (by rfl)

/-- C2, as stated, fails: `a7 = 2^32 + 1` is a 64-bit value above the length 3 of
`exTable`, yet `syscall` reads slot 1, calls its handler and stores the handler's 42,
not the sentinel, because the number is narrowed to `int` before it is tested. -/
theorem syscall_wide_call_number_counterexample :
    (exTable.length ≤ (exProcCalling (2 ^ 32 + 1)).trapframe.a7 ∧
      (exProcCalling (2 ^ 32 + 1)).trapframe.a7 < 2 ^ 64) ∧
    indexReads (syscall exNumbers exTable ⟨exProcCalling (2 ^ 32 + 1), []⟩).kernel.log
      = [1, 1] ∧
    callsMade (syscall exNumbers exTable ⟨exProcCalling (2 ^ 32 + 1), []⟩).kernel.log
      = [1] ∧
    (syscall exNumbers exTable ⟨exProcCalling (2 ^ 32 + 1), []⟩).kernel.proc.trapframe.a0
      = 42 ∧
    (syscall exNumbers exTable ⟨exProcCalling (2 ^ 32 + 1), []⟩).kernel.proc.trapframe.a0
      ≠ toUint64 (-1) := by
  decide

/-- C2 (amended): when the `int` read from `a7` is at least the table length, or is
negative, `syscall` returns after exactly two actions, the one diagnostic `printf`
carrying pid, name and that number, and the store of the sentinel `-1` to `a0`; it
reads no table slot and calls no handler. -/
theorem syscall_out_of_range_sentinel (c : SyscallNumbers) (tbl : List (Option Handler))
    (k : Kernel)
    (hout : (tbl.length : Int) ≤ toInt32 k.proc.trapframe.a7 ∨
      toInt32 k.proc.trapframe.a7 < 0) :
    syscall c tbl k = .ok ()
      { proc := { k.proc with
          trapframe := { k.proc.trapframe with a0 := 2 ^ 64 - 1 } },
        log := k.log ++
          [.printf "%d %s: unknown sys call %d\n"
              [.int k.proc.pid, .str k.proc.name, .int (toInt32 k.proc.trapframe.a7)],
            .setA0 (2 ^ 64 - 1)] } ∧
      indexReads (syscall c tbl k).kernel.log = indexReads k.log ∧
      callsMade (syscall c tbl k).kernel.log = callsMade k.log := by
  have hs := syscall_out_of_range c tbl k (by omega)
  have hk : unknownCall (toInt32 k.proc.trapframe.a7) k =
      { proc := { k.proc with
          trapframe := { k.proc.trapframe with a0 := 2 ^ 64 - 1 } },
        log := k.log ++
          [.printf "%d %s: unknown sys call %d\n"
              [.int k.proc.pid, .str k.proc.name, .int (toInt32 k.proc.trapframe.a7)],
            .setA0 (2 ^ 64 - 1)] } := by
    simp [unknownCall, storeA0, Kernel.emit, toUint64_neg_one]
  rw [hs, hk]
  refine ⟨rfl, ?_, ?_⟩
  · simp [Result.kernel, indexReads, List.filterMap_append]
  · simp [Result.kernel, callsMade, List.filterMap_append]

/-- Witness for C2 (amended): a table of length 22 with entries for 1..21 and call
number 22. -/
theorem syscall_out_of_range_sentinel_witness :
    ((exTable22.length : Int) ≤ toInt32 (exProcCalling 22).trapframe.a7 ∨
      toInt32 (exProcCalling 22).trapframe.a7 < 0) ∧
    (syscall exNumbers exTable22 ⟨exProcCalling 22, []⟩ = .ok ()
      { proc := { exProcCalling 22 with
          trapframe := { (exProcCalling 22).trapframe with a0 := 2 ^ 64 - 1 } },
        log := [] ++
          [.printf "%d %s: unknown sys call %d\n"
              [.int (exProcCalling 22).pid, .str (exProcCalling 22).name,
                .int (toInt32 (exProcCalling 22).trapframe.a7)],
            .setA0 (2 ^ 64 - 1)] } ∧
      indexReads (syscall exNumbers exTable22 ⟨exProcCalling 22, []⟩).kernel.log
        = indexReads [] ∧
      callsMade (syscall exNumbers exTable22 ⟨exProcCalling 22, []⟩).kernel.log
        = callsMade []) :=
  ⟨by decide, syscall_out_of_range_sentinel exNumbers exTable22 ⟨exProcCalling 22, []⟩
    (by decide)⟩

end Xv6

namespace Xv6

/-- C3: when the call number `num` (the `int` read from `a7`) is zero, or is in range and
`syscalls[num]` is null, `syscall` returns having called no handler, having stored the
sentinel `-1` (all ones, `2^64 - 1`) to `a0` and nothing else to the process, and having
made exactly one `printf`, the diagnostic line with pid, name and `num`; when `num` is
zero it has not read the table. -/
theorem syscall_zero_or_empty_slot (c : SyscallNumbers) (tbl : List (Option Handler))
    (k : Kernel)
    (hcase : toInt32 k.proc.trapframe.a7 = 0 ∨
      (0 < toInt32 k.proc.trapframe.a7 ∧ toInt32 k.proc.trapframe.a7 < tbl.length ∧
        readSlot tbl (toInt32 k.proc.trapframe.a7) = some none)) :
    ∃ k', syscall c tbl k = .ok () k' ∧
      callsMade k'.log = callsMade k.log ∧
      k'.proc = { k.proc with trapframe := { k.proc.trapframe with a0 := 2 ^ 64 - 1 } } ∧
      storesA0 k'.log = storesA0 k.log ++ [2 ^ 64 - 1] ∧
      printfs k'.log = printfs k.log ++
        [("%d %s: unknown sys call %d\n",
          [.int k.proc.pid, .str k.proc.name, .int (toInt32 k.proc.trapframe.a7)])] ∧
      (toInt32 k.proc.trapframe.a7 = 0 → indexReads k'.log = indexReads k.log) := by
  rcases hcase with h0 | ⟨hpos, hlt, hslot⟩
  · refine ⟨_, syscall_out_of_range c tbl k (by omega), ?_, ?_, ?_, ?_, ?_⟩
    · simp [unknownCall, callsMade, List.filterMap_append]
    · simp [unknownCall, storeA0, toUint64_neg_one]
    · simp [unknownCall, storesA0, List.filterMap_append, toUint64_neg_one]
    · simp [unknownCall, printfs, List.filterMap_append]
    · intro _
      simp [unknownCall, indexReads, List.filterMap_append]
  · refine ⟨_, syscall_empty_slot c tbl k hpos hlt hslot, ?_, ?_, ?_, ?_, ?_⟩
    · simp [unknownCall, callsMade, List.filterMap_append]
    · simp [unknownCall, storeA0, toUint64_neg_one]
    · simp [unknownCall, storesA0, List.filterMap_append, toUint64_neg_one]
    · simp [unknownCall, printfs, List.filterMap_append]
    · intro h0
      omega

/-- Witness for C3: call number 2 on `exTable`, whose slot 2 is null. -/
theorem syscall_zero_or_empty_slot_witness :
    (toInt32 (exProcCalling 2).trapframe.a7 = 0 ∨
      (0 < toInt32 (exProcCalling 2).trapframe.a7 ∧
        toInt32 (exProcCalling 2).trapframe.a7 < exTable.length ∧
        readSlot exTable (toInt32 (exProcCalling 2).trapframe.a7) = some none)) ∧
    ∃ k', syscall exNumbers exTable ⟨exProcCalling 2, []⟩ = .ok () k' ∧
      callsMade k'.log = callsMade [] ∧
      k'.proc = { exProcCalling 2 with
        trapframe := { (exProcCalling 2).trapframe with a0 := 2 ^ 64 - 1 } } ∧
      storesA0 k'.log = storesA0 [] ++ [2 ^ 64 - 1] ∧
      printfs k'.log = printfs [] ++
        [("%d %s: unknown sys call %d\n",
          [.int (exProcCalling 2).pid, .str (exProcCalling 2).name,
            .int (toInt32 (exProcCalling 2).trapframe.a7)])] ∧
      (toInt32 (exProcCalling 2).trapframe.a7 = 0 → indexReads k'.log = indexReads []) :=
  ⟨Or.inr ⟨by decide, by decide, rfl⟩,
    syscall_zero_or_empty_slot exNumbers exTable ⟨exProcCalling 2, []⟩
      (Or.inr ⟨by decide, by decide, rfl⟩)⟩

/-- C4: whatever `a7` and the table hold, `syscall` never reads the table out of bounds
and never calls through a null slot (the undefined outcome does not arise); every index
`i` at which it reads the table satisfies `0 < i < NELEM(syscalls)`, and every slot it
calls through is such an index whose content is a handler. -/
theorem syscall_table_access_checked (c : SyscallNumbers) (tbl : List (Option Handler))
    (k : Kernel) :
    (∀ k', syscall c tbl k ≠ .undef k') ∧
    ∃ evs, (syscall c tbl k).kernel.log = k.log ++ evs ∧
      (∀ i ∈ indexReads evs, 0 < i ∧ i < tbl.length ∧ i = toInt32 k.proc.trapframe.a7) ∧
      (∀ i ∈ callsMade evs, 0 < i ∧ i < tbl.length ∧ i = toInt32 k.proc.trapframe.a7 ∧
        ∃ h, readSlot tbl i = some (some h)) := by
  by_cases hr : 0 < toInt32 k.proc.trapframe.a7 ∧ toInt32 k.proc.trapframe.a7 < tbl.length
  · obtain ⟨hpos, hlt⟩ := hr
    obtain ⟨slot, hslot⟩ := readSlot_in_range tbl _ hpos hlt
    cases slot with
    | none =>
      have hs := syscall_empty_slot c tbl k hpos hlt hslot
      rw [hs]
      refine ⟨(fun k' hk => by cases hk),
        [.index (toInt32 k.proc.trapframe.a7),
          .printf "%d %s: unknown sys call %d\n"
            [.int k.proc.pid, .str k.proc.name, .int (toInt32 k.proc.trapframe.a7)],
          .setA0 (2 ^ 64 - 1)], ?_, ?_, ?_⟩
      · simp only [Result.kernel, unknownCall_log, emit_log, emit_proc, List.append_assoc,
          List.singleton_append]
      · intro i hi
        simp [indexReads] at hi
        subst hi
        exact ⟨hpos, hlt, rfl⟩
      · intro i hi
        simp [callsMade] at hi
    | some h =>
      have hs := syscall_populated c tbl k h hpos hlt hslot
      cases hh : h k.proc with
      | none =>
        rw [hh] at hs
        rw [hs]
        refine ⟨(fun k' hk => by cases hk), _, rfl, ?_, ?_⟩
        · intro i hi
          simp [indexReads] at hi
          subst hi
          exact ⟨hpos, hlt, rfl⟩
        · intro i hi
          simp [callsMade] at hi
          subst hi
          exact ⟨hpos, hlt, rfl, h, hslot⟩
      | some pr =>
        obtain ⟨p1, r⟩ := pr
        rw [hh] at hs
        simp only at hs
        obtain ⟨evs, hlog, hidx, hcalls, _⟩ :=
          traceBlock_log c (toInt32 k.proc.trapframe.a7) (toInt32 k.proc.trapframe.a0)
            (r % 2 ^ 64)
            (storeA0 (r % 2 ^ 64)
              { proc := p1,
                log := k.log ++ [.index (toInt32 k.proc.trapframe.a7),
                  .index (toInt32 k.proc.trapframe.a7),
                  .call (toInt32 k.proc.trapframe.a7)] })
        rw [hs]
        refine ⟨(fun k' hk => by cases hk),
          [.index (toInt32 k.proc.trapframe.a7), .index (toInt32 k.proc.trapframe.a7),
            .call (toInt32 k.proc.trapframe.a7), .setA0 (r % 2 ^ 64)] ++ evs, ?_, ?_, ?_⟩
        · simp only [Result.kernel]
          rw [hlog]
          simp
        · intro i hi
          rw [indexReads_append, hidx] at hi
          simp [indexReads] at hi
          subst hi
          exact ⟨hpos, hlt, rfl⟩
        · intro i hi
          rw [callsMade_append, hcalls] at hi
          simp [callsMade] at hi
          subst hi
          exact ⟨hpos, hlt, rfl, h, hslot⟩
  · have hs := syscall_out_of_range c tbl k hr
    rw [hs]
    refine ⟨(fun k' hk => by cases hk),
      [.printf "%d %s: unknown sys call %d\n"
          [.int k.proc.pid, .str k.proc.name, .int (toInt32 k.proc.trapframe.a7)],
        .setA0 (2 ^ 64 - 1)], ?_, ?_, ?_⟩
    · simp only [Result.kernel, unknownCall_log]
    · intro i hi
      simp [indexReads] at hi
    · intro i hi
      simp [callsMade] at hi

end Xv6

/-! ## The fetchers of user memory -/

namespace Xv6

/-- C5, as stated, fails: with `sz = 2^64 - 1` and `addr = 2^64 - 8` the unbounded sum
`addr + 8` exceeds `sz`, yet `addr < sz` and the 64-bit sum wraps to 0, so the bounds
check passes, `copyin` is called and `fetchaddr` returns 0 with the bytes it delivered. -/
theorem fetchaddr_wrap_counterexample :
    (2 ^ 64 - 8 < 2 ^ 64 ∧ (exProcSized (2 ^ 64 - 1)).sz < 2 ^ 64 ∧
      (2 ^ 64 - 8) + 8 > (exProcSized (2 ^ 64 - 1)).sz) ∧
    fetchaddr exCopyin (2 ^ 64 - 8) [0, 0, 0, 0, 0, 0, 0, 0] ⟨exProcSized (2 ^ 64 - 1), []⟩
      = .ok (0, [1, 2, 3, 4, 5, 6, 7, 8])
          ⟨exProcSized (2 ^ 64 - 1), [.copyin 7 (2 ^ 64 - 8) 8]⟩ := by
  decide

/-- C5 (amended): for every address `a` and process size `sz` with `a + 8 > sz` (unbounded
sum), provided `sz ≤ 2^64 - 8` or `a ≥ sz`, `fetchaddr` returns -1 whatever `copyin` is,
and leaves the kernel state, log included, and the buffer `*ip` as they were: `copyin` is
not called. -/
theorem fetchaddr_out_of_bounds (copyin : CopyIn) (a : Nat) (ip : List Nat) (k : Kernel)
    (hoob : a + 8 > k.proc.sz)
    (hsz : k.proc.sz ≤ 2 ^ 64 - 8 ∨ k.proc.sz ≤ a) :
    fetchaddr copyin a ip k = .ok (-1, ip) k := by
  unfold fetchaddr
  have hc : a ≥ k.proc.sz ∨ (a + 8) % 2 ^ 64 > k.proc.sz := by
    by_cases hge : k.proc.sz ≤ a
    · exact Or.inl hge
    · right
      have h8 : k.proc.sz ≤ 2 ^ 64 - 8 := by
        rcases hsz with h | h
        · exact h
        · exact absurd h hge
      have hlt : a + 8 < 2 ^ 64 := by omega
      rw [Nat.mod_eq_of_lt hlt]
      exact hoob
  simp only [hc, if_true]

/-- Witness for C5 (amended): size 4096, address 4090. -/
theorem fetchaddr_out_of_bounds_witness :
    (4090 + 8 > (⟨exProc, []⟩ : Kernel).proc.sz ∧
      ((⟨exProc, []⟩ : Kernel).proc.sz ≤ 2 ^ 64 - 8 ∨ (⟨exProc, []⟩ : Kernel).proc.sz ≤ 4090)) ∧
    fetchaddr exCopyin 4090 [0, 0, 0, 0, 0, 0, 0, 0] ⟨exProc, []⟩
      = .ok (-1, [0, 0, 0, 0, 0, 0, 0, 0]) ⟨exProc, []⟩ :=
  ⟨by decide,
    fetchaddr_out_of_bounds exCopyin 4090 [0, 0, 0, 0, 0, 0, 0, 0] ⟨exProc, []⟩
      (by decide) (by decide)⟩

/-- C6: for every address `a` and size `sz` with `a + 8 ≤ sz`, when `copyin` returns 0
`fetchaddr` returns 0 after exactly one call `copyin(p->pagetable, ip, a, 8)`, and `*ip`
holds what that call delivered; and whenever `fetchaddr` returns 0, the bounds check
passed (`a < sz` and the 64-bit `a + 8` is at most `sz`), `copyin` returned 0 and `*ip`
holds what it delivered. -/
theorem fetchaddr_in_bounds (copyin : CopyIn) (a : Nat) (ip : List Nat) (k : Kernel) :
    (a + 8 ≤ k.proc.sz → (copyin k.proc.pagetable ip a 8).1 = 0 →
      fetchaddr copyin a ip k
        = .ok (0, (copyin k.proc.pagetable ip a 8).2)
            { proc := k.proc, log := k.log ++ [.copyin k.proc.pagetable a 8] }) ∧
    (∀ buf k', fetchaddr copyin a ip k = .ok (0, buf) k' →
      (a < k.proc.sz ∧ (a + 8) % 2 ^ 64 ≤ k.proc.sz) ∧
      (copyin k.proc.pagetable ip a 8).1 = 0 ∧
      buf = (copyin k.proc.pagetable ip a 8).2) := by
  constructor
  · intro hin hok
    unfold fetchaddr
    have hc : ¬ (a ≥ k.proc.sz ∨ (a + 8) % 2 ^ 64 > k.proc.sz) := by
      have := Nat.mod_le (a + 8) (2 ^ 64)
      omega
    simp only [hc, if_false, hok, ne_eq, not_true_eq_false]
    rfl
  · intro buf k' hret
    unfold fetchaddr at hret
    by_cases hc : a ≥ k.proc.sz ∨ (a + 8) % 2 ^ 64 > k.proc.sz
    · simp only [hc, if_true] at hret
      cases hret
    · simp only [hc, if_false] at hret
      by_cases hok : (copyin k.proc.pagetable ip a 8).1 = 0
      · simp only [hok, ne_eq, not_true_eq_false, if_false] at hret
        refine ⟨by omega, hok, ?_⟩
        cases hret
        rfl
      · simp only [ne_eq, hok, not_false_eq_true, if_true] at hret
        cases hret

/-- Witness for C6: size 4096, address 4088, a `copyin` that succeeds. -/
theorem fetchaddr_in_bounds_witness :
    (4088 + 8 ≤ (⟨exProc, []⟩ : Kernel).proc.sz ∧
      (exCopyin (⟨exProc, []⟩ : Kernel).proc.pagetable [0, 0, 0, 0, 0, 0, 0, 0] 4088 8).1 = 0) ∧
    fetchaddr exCopyin 4088 [0, 0, 0, 0, 0, 0, 0, 0] ⟨exProc, []⟩
      = .ok (0, (exCopyin (⟨exProc, []⟩ : Kernel).proc.pagetable
              [0, 0, 0, 0, 0, 0, 0, 0] 4088 8).2)
          { proc := (⟨exProc, []⟩ : Kernel).proc,
            log := (⟨exProc, []⟩ : Kernel).log ++
              [.copyin (⟨exProc, []⟩ : Kernel).proc.pagetable 4088 8] } ∧
    ((4088 < (⟨exProc, []⟩ : Kernel).proc.sz ∧
        (4088 + 8) % 2 ^ 64 ≤ (⟨exProc, []⟩ : Kernel).proc.sz) ∧
      (exCopyin (⟨exProc, []⟩ : Kernel).proc.pagetable [0, 0, 0, 0, 0, 0, 0, 0] 4088 8).1 = 0 ∧
      [1, 2, 3, 4, 5, 6, 7, 8]
        = (exCopyin (⟨exProc, []⟩ : Kernel).proc.pagetable
            [0, 0, 0, 0, 0, 0, 0, 0] 4088 8).2) :=
  ⟨by decide,
    (fetchaddr_in_bounds exCopyin 4088 [0, 0, 0, 0, 0, 0, 0, 0] ⟨exProc, []⟩).1
      (by decide) (by decide),
    (fetchaddr_in_bounds exCopyin 4088 [0, 0, 0, 0, 0, 0, 0, 0] ⟨exProc, []⟩).2
      [1, 2, 3, 4, 5, 6, 7, 8] ⟨exProc, [.copyin 7 4088 8]⟩ (by decide)⟩

end Xv6

namespace Xv6

/-- C7, as stated, fails: in a process of size 16 the address 16 is at the end of the
address space, yet `fetchstr` on it returns 2 with the string "hi" in the buffer,
because the page is readable through `copyinstr` and `fetchstr` never looks at `sz`. -/
theorem fetchstr_beyond_sz_counterexample :
    (exProcSized 16).sz ≤ 16 ∧
    fetchstr (copyinstrRef exMem) 16 exBuf 8 ⟨exProcSized 16, []⟩
      = .ok (2, [104, 105, 0, 255, 255, 255, 255, 255])
          ⟨exProcSized 16, [.copyinstr 7 16 8]⟩ := by
  decide

/-- C7 (amended): `fetchstr` makes no check against `sz`: with any other value `sz'` in
place of `sz` it returns the same value and buffer after the same single call of
`copyinstr`, and its result is negative exactly when `copyinstr` reports failure; of the
fetchers only `fetchaddr` tests the address against `sz`, and it calls `copyin` only
after `a < sz` and the 64-bit `a + 8 ≤ sz` have passed. -/
theorem fetchstr_ignores_sz (copyinstr : CopyInStr) (copyin : CopyIn) (a : Nat)
    (buf : List Nat) (max : Int) (k : Kernel) (sz' : Nat) :
    (∃ v, fetchstr copyinstr a buf max k
          = .ok v { proc := k.proc,
                    log := k.log ++ [.copyinstr k.proc.pagetable a (toUint64 max)] } ∧
        fetchstr copyinstr a buf max { proc := { k.proc with sz := sz' }, log := k.log }
          = .ok v { proc := { k.proc with sz := sz' },
                    log := k.log ++ [.copyinstr k.proc.pagetable a (toUint64 max)] } ∧
        (v.1 < 0 ↔ (copyinstr k.proc.pagetable buf a (toUint64 max)).1 < 0)) ∧
    ((fetchaddr copyin a buf k).kernel.log = k.log ∨
      (a < k.proc.sz ∧ (a + 8) % 2 ^ 64 ≤ k.proc.sz)) := by
  constructor
  · unfold fetchstr
    by_cases herr : (copyinstr k.proc.pagetable buf a (toUint64 max)).1 < 0
    · refine ⟨((copyinstr k.proc.pagetable buf a (toUint64 max)).1,
        (copyinstr k.proc.pagetable buf a (toUint64 max)).2), ?_, ?_, ?_⟩
      · simp only [herr, if_true]
        rfl
      · simp only [herr, if_true]
        rfl
      · simp only [herr]
    · refine ⟨(strlen (copyinstr k.proc.pagetable buf a (toUint64 max)).2,
        (copyinstr k.proc.pagetable buf a (toUint64 max)).2), ?_, ?_, ?_⟩
      · simp only [herr, if_false]
        rfl
      · simp only [herr, if_false]
        rfl
      · have := strlen_nonneg (copyinstr k.proc.pagetable buf a (toUint64 max)).2
        constructor
        · intro h
          simp only at h
          omega
        · intro h
          exact absurd h herr
  · unfold fetchaddr
    by_cases hc : a ≥ k.proc.sz ∨ (a + 8) % 2 ^ 64 > k.proc.sz
    · left
      simp only [hc, if_true, Result.kernel]
    · right
      omega

/-- C8: with `copyinstr` behaving as its reference and `0 ≤ max` an `int`: when user
memory at `a` holds the nonzero bytes `s` followed by a null and `|s| < max`, `fetchstr`
returns `|s|` and the buffer starts with `s` and the null; when none of the first `max`
bytes at `a` is a readable null, `fetchstr` returns -1. -/
theorem fetchstr_reference (mem : UserMem) (a : Nat) (buf : List Nat) (max : Int)
    (k : Kernel) (hmax0 : 0 ≤ max) (hmax : max < 2 ^ 31) :
    (∀ s : List Nat, (s.length : Int) < max → (∀ b ∈ s, b ≠ 0) →
      (∀ i, i < s.length → mem k.proc.pagetable (a + i) = s[i]?) →
      mem k.proc.pagetable (a + s.length) = some 0 →
      fetchstr (copyinstrRef mem) a buf max k
        = .ok ((s.length : Int), s ++ [0] ++ buf.drop (s.length + 1))
            { proc := k.proc, log := k.log ++ [.copyinstr k.proc.pagetable a max.toNat] }) ∧
    ((∀ i, i < max.toNat → mem k.proc.pagetable (a + i) ≠ some 0) →
      ∃ buf', fetchstr (copyinstrRef mem) a buf max k
        = .ok (-1, buf')
            { proc := k.proc, log := k.log ++ [.copyinstr k.proc.pagetable a max.toNat] }) := by
  have hu : toUint64 max = max.toNat := toUint64_of_nonneg max hmax0 (by omega)
  constructor
  · intro s hlen hnz hmem hend
    have hscan := copyinstrScan_terminated (mem k.proc.pagetable) s max.toNat a []
      (by omega) hnz hmem hend
    have hlen' : (s ++ [0]).length = s.length + 1 := by simp
    unfold fetchstr
    simp only [hu, copyinstrRef, hscan, List.nil_append, hlen']
    have h0 : ¬ ((0 : Int) < 0) := by omega
    simp only [h0, if_false]
    have hs : strlen (s ++ [0] ++ List.drop (s.length + 1) buf) = s.length := by
      rw [List.append_assoc]
      exact strlen_terminated s _ hnz
    rw [hs]
    rfl
  · intro hno
    have hscan := copyinstrScan_unterminated (mem k.proc.pagetable) max.toNat a [] hno
    unfold fetchstr
    simp only [hu, copyinstrRef, hscan]
    have h1 : ((-1 : Int) < 0) := by omega
    simp only [h1, if_true]
    exact ⟨_, rfl⟩

/-- Witness for C8: the string "hi" at address 16 with capacity 8, and the unterminated
bytes at address 32 with capacity 2. -/
theorem fetchstr_reference_witness :
    ((0 : Int) ≤ 8 ∧ (8 : Int) < 2 ^ 31 ∧ (0 : Int) ≤ 2 ∧ (2 : Int) < 2 ^ 31) ∧
    fetchstr (copyinstrRef exMem) 16 exBuf 8 ⟨exProc, []⟩
      = .ok ((([104, 105] : List Nat).length : Int),
            [104, 105] ++ [0] ++ exBuf.drop (([104, 105] : List Nat).length + 1))
          { proc := (⟨exProc, []⟩ : Kernel).proc,
            log := (⟨exProc, []⟩ : Kernel).log ++
              [.copyinstr (⟨exProc, []⟩ : Kernel).proc.pagetable 16 (8 : Int).toNat] } ∧
    ∃ buf', fetchstr (copyinstrRef exMem) 32 exBuf 2 ⟨exProc, []⟩
      = .ok (-1, buf')
          { proc := (⟨exProc, []⟩ : Kernel).proc,
            log := (⟨exProc, []⟩ : Kernel).log ++
              [.copyinstr (⟨exProc, []⟩ : Kernel).proc.pagetable 32 (2 : Int).toNat] } :=
  ⟨by decide,
    (fetchstr_reference exMem 16 exBuf 8 ⟨exProc, []⟩ (by decide) (by decide)).1
      [104, 105] (by decide) (by decide) (by decide) (by decide),
    (fetchstr_reference exMem 32 exBuf 2 ⟨exProc, []⟩ (by decide) (by decide)).2
      (by decide)⟩

end Xv6

/-! ## The fetchers of register arguments -/

namespace Xv6

/-- C9: for each `n` in 0..5 and every kernel state, `argraw(n)` returns the value of
trap-frame slot `a_n` and `argaddr(n, ip)` returns 0 with that same value in `*ip`; both
leave the kernel state (trap frame, the rest of the process, the log) as it was. -/
theorem argraw_argaddr_slots (k : Kernel) :
    (argraw 0 k = .ok k.proc.trapframe.a0 k ∧ argraw 1 k = .ok k.proc.trapframe.a1 k ∧
      argraw 2 k = .ok k.proc.trapframe.a2 k ∧ argraw 3 k = .ok k.proc.trapframe.a3 k ∧
      argraw 4 k = .ok k.proc.trapframe.a4 k ∧ argraw 5 k = .ok k.proc.trapframe.a5 k) ∧
    (argaddr 0 k = .ok (0, k.proc.trapframe.a0) k ∧
      argaddr 1 k = .ok (0, k.proc.trapframe.a1) k ∧
      argaddr 2 k = .ok (0, k.proc.trapframe.a2) k ∧
      argaddr 3 k = .ok (0, k.proc.trapframe.a3) k ∧
      argaddr 4 k = .ok (0, k.proc.trapframe.a4) k ∧
      argaddr 5 k = .ok (0, k.proc.trapframe.a5) k) := by
  refine ⟨⟨?_, ?_, ?_, ?_, ?_, ?_⟩, ?_, ?_, ?_, ?_, ?_, ?_⟩ <;>
    simp [argaddr, argraw, Result.bind]

/-- C10: for every `n` outside 0..5, `argraw`, `argint`, `argaddr` and `argstr` all end in
`panic("argraw")` with the kernel state untouched, returning nothing; for every `n` in
0..5 each of them returns, so none of them panics. -/
theorem arg_fetch_panics_iff_out_of_range (copyinstr : CopyInStr) (n : Int)
    (buf : List Nat) (max : Int) (k : Kernel) :
    ((n < 0 ∨ 5 < n) →
      argraw n k = .panic "argraw" k ∧ argint n k = .panic "argraw" k ∧
      argaddr n k = .panic "argraw" k ∧
      argstr copyinstr n buf max k = .panic "argraw" k) ∧
    ((0 ≤ n ∧ n ≤ 5) →
      (∃ v, argraw n k = .ok v k) ∧ (∃ v, argint n k = .ok (0, v) k) ∧
      (∃ v, argaddr n k = .ok (0, v) k) ∧
      (∃ v k', argstr copyinstr n buf max k = .ok v k')) := by
  constructor
  · intro hout
    have h0 : n ≠ 0 := by omega
    have h1 : n ≠ 1 := by omega
    have h2 : n ≠ 2 := by omega
    have h3 : n ≠ 3 := by omega
    have h4 : n ≠ 4 := by omega
    have h5 : n ≠ 5 := by omega
    have hraw : argraw n k = .panic "argraw" k := by
      simp [argraw, h0, h1, h2, h3, h4, h5]
    refine ⟨hraw, ?_, ?_, ?_⟩
    · simp [argint, hraw, Result.bind]
    · simp [argaddr, hraw, Result.bind]
    · simp [argstr, argaddr, hraw, Result.bind]
  · intro hin
    have hraw : ∃ v, argraw n k = .ok v k := by
      have hcases : n = 0 ∨ n = 1 ∨ n = 2 ∨ n = 3 ∨ n = 4 ∨ n = 5 := by omega
      rcases hcases with h | h | h | h | h | h <;> subst h <;> simp [argraw]
    obtain ⟨v, hv⟩ := hraw
    refine ⟨⟨v, hv⟩, ⟨toInt32 v, ?_⟩, ⟨v, ?_⟩, ?_⟩
    · simp [argint, hv]
    · simp [argaddr, hv]
    · have hlt : ¬ ((0 : Int) < 0) := by omega
      simp only [argstr, argaddr, hv, Result.bind_ok, hlt, if_false]
      unfold fetchstr
      by_cases herr : (copyinstr k.proc.pagetable buf v (toUint64 max)).1 < 0
      · simp only [herr, if_true]
        exact ⟨_, _, rfl⟩
      · simp only [herr, if_false]
        exact ⟨_, _, rfl⟩

/-- Witness for C10: slot number 6 panics, slot number 3 returns. -/
theorem arg_fetch_panics_iff_out_of_range_witness :
    (((6 : Int) < 0 ∨ (5 : Int) < 6) ∧ ((0 : Int) ≤ 3 ∧ (3 : Int) ≤ 5)) ∧
    (argraw 6 ⟨exProc, []⟩ = .panic "argraw" ⟨exProc, []⟩ ∧
      argint 6 ⟨exProc, []⟩ = .panic "argraw" ⟨exProc, []⟩ ∧
      argaddr 6 ⟨exProc, []⟩ = .panic "argraw" ⟨exProc, []⟩ ∧
      argstr (copyinstrRef exMem) 6 exBuf 8 ⟨exProc, []⟩ = .panic "argraw" ⟨exProc, []⟩) ∧
    ((∃ v, argraw 3 ⟨exProc, []⟩ = .ok v ⟨exProc, []⟩) ∧
      (∃ v, argint 3 ⟨exProc, []⟩ = .ok (0, v) ⟨exProc, []⟩) ∧
      (∃ v, argaddr 3 ⟨exProc, []⟩ = .ok (0, v) ⟨exProc, []⟩) ∧
      (∃ v k', argstr (copyinstrRef exMem) 3 exBuf 8 ⟨exProc, []⟩ = .ok v k')) :=
  ⟨by decide,
    (arg_fetch_panics_iff_out_of_range (copyinstrRef exMem) 6 exBuf 8 ⟨exProc, []⟩).1
      (by decide),
    (arg_fetch_panics_iff_out_of_range (copyinstrRef exMem) 3 exBuf 8 ⟨exProc, []⟩).2
      (by decide)⟩

end Xv6

namespace Xv6

/-- C11: for each `n` in 0..5 and whatever 64-bit value the slot `a_n` holds, `argint(n, ip)`
returns 0, leaves the kernel state as it was, and stores in `*ip` the narrowing of `a_n` to
`int`; that narrowing of a value `v` is the one integer in `[-2^31, 2^31)` congruent to `v`
modulo `2^32` (the low 32 bits read in two's complement). -/
theorem argint_narrows (k : Kernel) :
    (argint 0 k = .ok (0, toInt32 k.proc.trapframe.a0) k ∧
      argint 1 k = .ok (0, toInt32 k.proc.trapframe.a1) k ∧
      argint 2 k = .ok (0, toInt32 k.proc.trapframe.a2) k ∧
      argint 3 k = .ok (0, toInt32 k.proc.trapframe.a3) k ∧
      argint 4 k = .ok (0, toInt32 k.proc.trapframe.a4) k ∧
      argint 5 k = .ok (0, toInt32 k.proc.trapframe.a5) k) ∧
    (∀ v : Nat, -(2 ^ 31) ≤ toInt32 v ∧ toInt32 v < 2 ^ 31 ∧
      toInt32 v % 2 ^ 32 = ((v % 2 ^ 32 : Nat) : Int) ∧
      (v % 2 ^ 32 < 2 ^ 31 → toInt32 v = ((v % 2 ^ 32 : Nat) : Int)) ∧
      (2 ^ 31 ≤ v % 2 ^ 32 → toInt32 v = ((v % 2 ^ 32 : Nat) : Int) - 2 ^ 32)) := by
  refine ⟨⟨?_, ?_, ?_, ?_, ?_, ?_⟩, ?_⟩
  · simp [argint, argraw, Result.bind]
  · simp [argint, argraw, Result.bind]
  · simp [argint, argraw, Result.bind]
  · simp [argint, argraw, Result.bind]
  · simp [argint, argraw, Result.bind]
  · simp [argint, argraw, Result.bind]
  · intro v
    refine ⟨toInt32_ge v, toInt32_lt v, ?_, ?_, ?_⟩
    · unfold toInt32
      split <;> omega
    · intro h
      unfold toInt32
      rw [if_pos h]
    · intro h
      unfold toInt32
      rw [if_neg (by omega)]

/-- C12 fails on the code at a concrete input: with the string "hi" (two bytes and the
nul) at the address in `a0`, `argstr(0, buf, 8)` returns 2, the length without the nul,
where the comment on `argstr` promises the length including the nul, which is 3. -/
theorem argstr_length_excludes_nul_at_input :
    argstr (copyinstrRef exMem) 0 exBuf 8 ⟨exProcWith 16 1 0, []⟩
      = .ok (2, [104, 105, 0, 255, 255, 255, 255, 255])
          ⟨exProcWith 16 1 0, [.copyinstr 7 16 8]⟩ ∧
    (2 : Int) ≠ (([104, 105, 0] : List Nat).length : Int) := by
  decide

/-- C16: for each `n` in 0..5, `argaddr(n, ip)` returns 0 with the raw value of slot `a_n`
in `*ip` and the kernel state as it was, and `argstr(n, buf, max)` is
`fetchstr(a_n, buf, max)` for every `copyinstr`, buffer, `max` and kernel state: the
branch of `argstr` for a failed address step is never taken. -/
theorem argstr_is_fetchstr (copyinstr : CopyInStr) (buf : List Nat) (max : Int)
    (k : Kernel) :
    (argaddr 0 k = .ok (0, k.proc.trapframe.a0) k ∧
      argaddr 1 k = .ok (0, k.proc.trapframe.a1) k ∧
      argaddr 2 k = .ok (0, k.proc.trapframe.a2) k ∧
      argaddr 3 k = .ok (0, k.proc.trapframe.a3) k ∧
      argaddr 4 k = .ok (0, k.proc.trapframe.a4) k ∧
      argaddr 5 k = .ok (0, k.proc.trapframe.a5) k) ∧
    (argstr copyinstr 0 buf max k = fetchstr copyinstr k.proc.trapframe.a0 buf max k ∧
      argstr copyinstr 1 buf max k = fetchstr copyinstr k.proc.trapframe.a1 buf max k ∧
      argstr copyinstr 2 buf max k = fetchstr copyinstr k.proc.trapframe.a2 buf max k ∧
      argstr copyinstr 3 buf max k = fetchstr copyinstr k.proc.trapframe.a3 buf max k ∧
      argstr copyinstr 4 buf max k = fetchstr copyinstr k.proc.trapframe.a4 buf max k ∧
      argstr copyinstr 5 buf max k = fetchstr copyinstr k.proc.trapframe.a5 buf max k) := by
  refine ⟨⟨?_, ?_, ?_, ?_, ?_, ?_⟩, ?_, ?_, ?_, ?_, ?_, ?_⟩ <;>
    simp [argstr, argaddr, argraw, Result.bind]

/-- C19: for every process size `sz ≤ 2^64 - 8` and every address, `fetchaddr` stops at
its bounds check (returns -1 with the buffer and the kernel state untouched, `copyin` not
called) exactly when `addr + 8 > sz` as unbounded integers; and there is a size above
`2^64 - 8`, namely `2^64 - 1`, with an address, `2^64 - 8`, for which `addr + 8 > sz`
and yet the check passes and `copyin` is called. -/
theorem fetchaddr_check_exact (copyin : CopyIn) (a : Nat) (ip : List Nat) (k : Kernel) :
    (k.proc.sz ≤ 2 ^ 64 - 8 →
      ((a ≥ k.proc.sz ∨ (a + 8) % 2 ^ 64 > k.proc.sz) ↔ a + 8 > k.proc.sz) ∧
      (fetchaddr copyin a ip k = .ok (-1, ip) k ↔ a + 8 > k.proc.sz) ∧
      ((fetchaddr copyin a ip k).kernel.log = k.log ↔ a + 8 > k.proc.sz)) ∧
    (∃ sz addr : Nat, 2 ^ 64 - 8 < sz ∧ sz < 2 ^ 64 ∧ addr < 2 ^ 64 ∧ addr + 8 > sz ∧
      ¬ (addr ≥ sz ∨ (addr + 8) % 2 ^ 64 > sz) ∧
      (fetchaddr exCopyin addr [0, 0, 0, 0, 0, 0, 0, 0] ⟨exProcSized sz, []⟩).kernel.log
        = [.copyin 7 addr 8]) := by
  constructor
  · intro hsz
    have hchk : (a ≥ k.proc.sz ∨ (a + 8) % 2 ^ 64 > k.proc.sz) ↔ a + 8 > k.proc.sz := by
      constructor
      · intro h
        rcases h with h | h
        · omega
        · have := Nat.mod_le (a + 8) (2 ^ 64)
          omega
      · intro h
        by_cases hge : k.proc.sz ≤ a
        · exact Or.inl hge
        · right
          rw [Nat.mod_eq_of_lt (by omega)]
          exact h
    have hlog : (fetchaddr copyin a ip k).kernel.log = k.log ↔ a + 8 > k.proc.sz := by
      unfold fetchaddr
      by_cases hc : a ≥ k.proc.sz ∨ (a + 8) % 2 ^ 64 > k.proc.sz
      · simp only [hc, if_true, Result.kernel, true_iff]
        exact hchk.mp hc
      · have hn : ¬ (a + 8 > k.proc.sz) := fun h => hc (hchk.mpr h)
        simp only [hc, if_false]
        constructor
        · intro h
          exfalso
          have hl := congrArg List.length h
          by_cases hr : (copyin k.proc.pagetable ip a 8).1 ≠ 0
          · simp [hr, Result.kernel] at hl
          · simp [hr, Result.kernel] at hl
        · intro h
          exact absurd h hn
    refine ⟨hchk, ?_, hlog⟩
    constructor
    · intro h
      apply hlog.mp
      rw [h]
      rfl
    · intro h
      unfold fetchaddr
      simp only [hchk.mpr h, if_true]
  · exact ⟨2 ^ 64 - 1, 2 ^ 64 - 8, by decide, by decide, by decide, by decide, by decide,
      by decide⟩

/-- Witness for C19: size 4096 and address 4090. -/
theorem fetchaddr_check_exact_witness :
    (⟨exProc, []⟩ : Kernel).proc.sz ≤ 2 ^ 64 - 8 ∧
    ((4090 ≥ (⟨exProc, []⟩ : Kernel).proc.sz ∨
        (4090 + 8) % 2 ^ 64 > (⟨exProc, []⟩ : Kernel).proc.sz) ↔
      4090 + 8 > (⟨exProc, []⟩ : Kernel).proc.sz) ∧
    (fetchaddr exCopyin 4090 [0, 0, 0, 0, 0, 0, 0, 0] ⟨exProc, []⟩
        = .ok (-1, [0, 0, 0, 0, 0, 0, 0, 0]) ⟨exProc, []⟩ ↔
      4090 + 8 > (⟨exProc, []⟩ : Kernel).proc.sz) ∧
    ((fetchaddr exCopyin 4090 [0, 0, 0, 0, 0, 0, 0, 0] ⟨exProc, []⟩).kernel.log
        = (⟨exProc, []⟩ : Kernel).log ↔
      4090 + 8 > (⟨exProc, []⟩ : Kernel).proc.sz) :=
  ⟨by decide,
    (fetchaddr_check_exact exCopyin 4090 [0, 0, 0, 0, 0, 0, 0, 0] ⟨exProc, []⟩).1
      (by decide)⟩

end Xv6

/-! ## The trace block -/

namespace Xv6

theorem ite_eq_some_cases {α : Type} {c : Prop} [Decidable c] {x y : Option α} {v : α}
    (h : (if c then x else y) = some v) : x = some v ∨ y = some v := by
  by_cases hc : c
  · rw [if_pos hc] at h
    exact Or.inl h
  · rw [if_neg hc] at h
    exact Or.inr h

/-- None of the formats of the name switch holds a line end. -/
theorem traceCase_no_line_end (c : SyscallNumbers) (num : Int) (fmt : String)
    (h : traceCase c num = some fmt) :
    (fmt.toList.filter fun ch => ch = Char.ofNat 10).length = 0 := by
  unfold traceCase at h
  iterate 22 (
    rcases ite_eq_some_cases h with h1 | h
    · cases h1
      decide)
  cases h

/-- With pairwise distinct case labels, as C requires of a `switch`, the name switch
yields for the number of each listed call the format made of the name of that call. -/
theorem traceCase_named (c : SyscallNumbers)
    (hd : ((traceNames c).map Prod.fst).Nodup) (n : Nat) (name : String)
    (hmem : (n, name) ∈ traceNames c) :
    traceCase c (n : Int) = some (name ++ "(%d)") := by
  simp only [traceNames, List.map_cons, List.map_nil, List.nodup_cons, List.mem_cons,
    List.mem_singleton, List.not_mem_nil, not_or, not_false_eq_true, and_true,
    List.nodup_nil] at hd
  simp only [traceNames, List.mem_cons, List.mem_singleton, Prod.mk.injEq, List.not_mem_nil,
    or_false] at hmem
  obtain ⟨⟨h0_1, h0_2, h0_3, h0_4, h0_5, h0_6, h0_7, h0_8, h0_9, h0_10, h0_11, h0_12, h0_13,
    h0_14, h0_15, h0_16, h0_17, h0_18, h0_19, h0_20, h0_21⟩, ⟨h1_2, h1_3, h1_4, h1_5, h1_6, h1_7,
    h1_8, h1_9, h1_10, h1_11, h1_12, h1_13, h1_14, h1_15, h1_16, h1_17, h1_18, h1_19, h1_20,
    h1_21⟩, ⟨h2_3, h2_4, h2_5, h2_6, h2_7, h2_8, h2_9, h2_10, h2_11, h2_12, h2_13, h2_14, h2_15,
    h2_16, h2_17, h2_18, h2_19, h2_20, h2_21⟩, ⟨h3_4, h3_5, h3_6, h3_7, h3_8, h3_9, h3_10, h3_11,
    h3_12, h3_13, h3_14, h3_15, h3_16, h3_17, h3_18, h3_19, h3_20, h3_21⟩, ⟨h4_5, h4_6, h4_7,
    h4_8, h4_9, h4_10, h4_11, h4_12, h4_13, h4_14, h4_15, h4_16, h4_17, h4_18, h4_19, h4_20,
    h4_21⟩, ⟨h5_6, h5_7, h5_8, h5_9, h5_10, h5_11, h5_12, h5_13, h5_14, h5_15, h5_16, h5_17,
    h5_18, h5_19, h5_20, h5_21⟩, ⟨h6_7, h6_8, h6_9, h6_10, h6_11, h6_12, h6_13, h6_14, h6_15,
    h6_16, h6_17, h6_18, h6_19, h6_20, h6_21⟩, ⟨h7_8, h7_9, h7_10, h7_11, h7_12, h7_13, h7_14,
    h7_15, h7_16, h7_17, h7_18, h7_19, h7_20, h7_21⟩, ⟨h8_9, h8_10, h8_11, h8_12, h8_13, h8_14,
    h8_15, h8_16, h8_17, h8_18, h8_19, h8_20, h8_21⟩, ⟨h9_10, h9_11, h9_12, h9_13, h9_14, h9_15,
    h9_16, h9_17, h9_18, h9_19, h9_20, h9_21⟩, ⟨h10_11, h10_12, h10_13, h10_14, h10_15, h10_16,
    h10_17, h10_18, h10_19, h10_20, h10_21⟩, ⟨h11_12, h11_13, h11_14, h11_15, h11_16, h11_17,
    h11_18, h11_19, h11_20, h11_21⟩, ⟨h12_13, h12_14, h12_15, h12_16, h12_17, h12_18, h12_19,
    h12_20, h12_21⟩, ⟨h13_14, h13_15, h13_16, h13_17, h13_18, h13_19, h13_20, h13_21⟩, ⟨h14_15,
    h14_16, h14_17, h14_18, h14_19, h14_20, h14_21⟩, ⟨h15_16, h15_17, h15_18, h15_19, h15_20,
    h15_21⟩, ⟨h16_17, h16_18, h16_19, h16_20, h16_21⟩, ⟨h17_18, h17_19, h17_20, h17_21⟩, ⟨h18_19,
    h18_20, h18_21⟩, ⟨h19_20, h19_21⟩, h20_21⟩ := hd
  rcases hmem with ⟨en0, es0⟩ | ⟨en1, es1⟩ | ⟨en2, es2⟩ | ⟨en3, es3⟩ | ⟨en4, es4⟩ | ⟨en5, es5⟩ |
    ⟨en6, es6⟩ | ⟨en7, es7⟩ | ⟨en8, es8⟩ | ⟨en9, es9⟩ | ⟨en10, es10⟩ | ⟨en11, es11⟩ | ⟨en12,
    es12⟩ | ⟨en13, es13⟩ | ⟨en14, es14⟩ | ⟨en15, es15⟩ | ⟨en16, es16⟩ | ⟨en17, es17⟩ | ⟨en18,
    es18⟩ | ⟨en19, es19⟩ | ⟨en20, es20⟩ | ⟨en21, es21⟩
  · subst en0 es0
    unfold traceCase
    rw [if_pos rfl]
    rfl
  · subst en1 es1
    unfold traceCase
    rw [if_neg (fun e => h0_1 (Int.ofNat_inj.mp e).symm), if_pos rfl]
    rfl
  · subst en2 es2
    unfold traceCase
    rw [if_neg (fun e => h0_2 (Int.ofNat_inj.mp e).symm),
      if_neg (fun e => h1_2 (Int.ofNat_inj.mp e).symm), if_pos rfl]
    rfl
  · subst en3 es3
    unfold traceCase
    rw [if_neg (fun e => h0_3 (Int.ofNat_inj.mp e).symm),
      if_neg (fun e => h1_3 (Int.ofNat_inj.mp e).symm),
      if_neg (fun e => h2_3 (Int.ofNat_inj.mp e).symm), if_pos rfl]
    rfl
  · subst en4 es4
    unfold traceCase
    rw [if_neg (fun e => h0_4 (Int.ofNat_inj.mp e).symm),
      if_neg (fun e => h1_4 (Int.ofNat_inj.mp e).symm),
      if_neg (fun e => h2_4 (Int.ofNat_inj.mp e).symm),
      if_neg (fun e => h3_4 (Int.ofNat_inj.mp e).symm), if_pos rfl]
    rfl
  · subst en5 es5
    unfold traceCase
    rw [if_neg (fun e => h0_5 (Int.ofNat_inj.mp e).symm),
      if_neg (fun e => h1_5 (Int.ofNat_inj.mp e).symm),
      if_neg (fun e => h2_5 (Int.ofNat_inj.mp e).symm),
      if_neg (fun e => h3_5 (Int.ofNat_inj.mp e).symm),
      if_neg (fun e => h4_5 (Int.ofNat_inj.mp e).symm), if_pos rfl]
    rfl
  · subst en6 es6
    unfold traceCase
    rw [if_neg (fun e => h0_6 (Int.ofNat_inj.mp e).symm),
      if_neg (fun e => h1_6 (Int.ofNat_inj.mp e).symm),
      if_neg (fun e => h2_6 (Int.ofNat_inj.mp e).symm),
      if_neg (fun e => h3_6 (Int.ofNat_inj.mp e).symm),
      if_neg (fun e => h4_6 (Int.ofNat_inj.mp e).symm),
      if_neg (fun e => h5_6 (Int.ofNat_inj.mp e).symm), if_pos rfl]
    rfl
  · subst en7 es7
    unfold traceCase
    rw [if_neg (fun e => h0_7 (Int.ofNat_inj.mp e).symm),
      if_neg (fun e => h1_7 (Int.ofNat_inj.mp e).symm),
      if_neg (fun e => h2_7 (Int.ofNat_inj.mp e).symm),
      if_neg (fun e => h3_7 (Int.ofNat_inj.mp e).symm),
      if_neg (fun e => h4_7 (Int.ofNat_inj.mp e).symm),
      if_neg (fun e => h5_7 (Int.ofNat_inj.mp e).symm),
      if_neg (fun e => h6_7 (Int.ofNat_inj.mp e).symm), if_pos rfl]
    rfl
  · subst en8 es8
    unfold traceCase
    rw [if_neg (fun e => h0_8 (Int.ofNat_inj.mp e).symm),
      if_neg (fun e => h1_8 (Int.ofNat_inj.mp e).symm),
      if_neg (fun e => h2_8 (Int.ofNat_inj.mp e).symm),
      if_neg (fun e => h3_8 (Int.ofNat_inj.mp e).symm),
      if_neg (fun e => h4_8 (Int.ofNat_inj.mp e).symm),
      if_neg (fun e => h5_8 (Int.ofNat_inj.mp e).symm),
      if_neg (fun e => h6_8 (Int.ofNat_inj.mp e).symm),
      if_neg (fun e => h7_8 (Int.ofNat_inj.mp e).symm), if_pos rfl]
    rfl
  · subst en9 es9
    unfold traceCase
    rw [if_neg (fun e => h0_9 (Int.ofNat_inj.mp e).symm),
      if_neg (fun e => h1_9 (Int.ofNat_inj.mp e).symm),
      if_neg (fun e => h2_9 (Int.ofNat_inj.mp e).symm),
      if_neg (fun e => h3_9 (Int.ofNat_inj.mp e).symm),
      if_neg (fun e => h4_9 (Int.ofNat_inj.mp e).symm),
      if_neg (fun e => h5_9 (Int.ofNat_inj.mp e).symm),
      if_neg (fun e => h6_9 (Int.ofNat_inj.mp e).symm),
      if_neg (fun e => h7_9 (Int.ofNat_inj.mp e).symm),
      if_neg (fun e => h8_9 (Int.ofNat_inj.mp e).symm), if_pos rfl]
    rfl
  · subst en10 es10
    unfold traceCase
    rw [if_neg (fun e => h0_10 (Int.ofNat_inj.mp e).symm),
      if_neg (fun e => h1_10 (Int.ofNat_inj.mp e).symm),
      if_neg (fun e => h2_10 (Int.ofNat_inj.mp e).symm),
      if_neg (fun e => h3_10 (Int.ofNat_inj.mp e).symm),
      if_neg (fun e => h4_10 (Int.ofNat_inj.mp e).symm),
      if_neg (fun e => h5_10 (Int.ofNat_inj.mp e).symm),
      if_neg (fun e => h6_10 (Int.ofNat_inj.mp e).symm),
      if_neg (fun e => h7_10 (Int.ofNat_inj.mp e).symm),
      if_neg (fun e => h8_10 (Int.ofNat_inj.mp e).symm),
      if_neg (fun e => h9_10 (Int.ofNat_inj.mp e).symm), if_pos rfl]
    rfl
  · subst en11 es11
    unfold traceCase
    rw [if_neg (fun e => h0_11 (Int.ofNat_inj.mp e).symm),
      if_neg (fun e => h1_11 (Int.ofNat_inj.mp e).symm),
      if_neg (fun e => h2_11 (Int.ofNat_inj.mp e).symm),
      if_neg (fun e => h3_11 (Int.ofNat_inj.mp e).symm),
      if_neg (fun e => h4_11 (Int.ofNat_inj.mp e).symm),
      if_neg (fun e => h5_11 (Int.ofNat_inj.mp e).symm),
      if_neg (fun e => h6_11 (Int.ofNat_inj.mp e).symm),
      if_neg (fun e => h7_11 (Int.ofNat_inj.mp e).symm),
      if_neg (fun e => h8_11 (Int.ofNat_inj.mp e).symm),
      if_neg (fun e => h9_11 (Int.ofNat_inj.mp e).symm),
      if_neg (fun e => h10_11 (Int.ofNat_inj.mp e).symm), if_pos rfl]
    rfl
  · subst en12 es12
    unfold traceCase
    rw [if_neg (fun e => h0_12 (Int.ofNat_inj.mp e).symm),
      if_neg (fun e => h1_12 (Int.ofNat_inj.mp e).symm),
      if_neg (fun e => h2_12 (Int.ofNat_inj.mp e).symm),
      if_neg (fun e => h3_12 (Int.ofNat_inj.mp e).symm),
      if_neg (fun e => h4_12 (Int.ofNat_inj.mp e).symm),
      if_neg (fun e => h5_12 (Int.ofNat_inj.mp e).symm),
      if_neg (fun e => h6_12 (Int.ofNat_inj.mp e).symm),
      if_neg (fun e => h7_12 (Int.ofNat_inj.mp e).symm),
      if_neg (fun e => h8_12 (Int.ofNat_inj.mp e).symm),
      if_neg (fun e => h9_12 (Int.ofNat_inj.mp e).symm),
      if_neg (fun e => h10_12 (Int.ofNat_inj.mp e).symm),
      if_neg (fun e => h11_12 (Int.ofNat_inj.mp e).symm), if_pos rfl]
    rfl
  · subst en13 es13
    unfold traceCase
    rw [if_neg (fun e => h0_13 (Int.ofNat_inj.mp e).symm),
      if_neg (fun e => h1_13 (Int.ofNat_inj.mp e).symm),
      if_neg (fun e => h2_13 (Int.ofNat_inj.mp e).symm),
      if_neg (fun e => h3_13 (Int.ofNat_inj.mp e).symm),
      if_neg (fun e => h4_13 (Int.ofNat_inj.mp e).symm),
      if_neg (fun e => h5_13 (Int.ofNat_inj.mp e).symm),
      if_neg (fun e => h6_13 (Int.ofNat_inj.mp e).symm),
      if_neg (fun e => h7_13 (Int.ofNat_inj.mp e).symm),
      if_neg (fun e => h8_13 (Int.ofNat_inj.mp e).symm),
      if_neg (fun e => h9_13 (Int.ofNat_inj.mp e).symm),
      if_neg (fun e => h10_13 (Int.ofNat_inj.mp e).symm),
      if_neg (fun e => h11_13 (Int.ofNat_inj.mp e).symm),
      if_neg (fun e => h12_13 (Int.ofNat_inj.mp e).symm), if_pos rfl]
    rfl
  · subst en14 es14
    unfold traceCase
    rw [if_neg (fun e => h0_14 (Int.ofNat_inj.mp e).symm),
      if_neg (fun e => h1_14 (Int.ofNat_inj.mp e).symm),
      if_neg (fun e => h2_14 (Int.ofNat_inj.mp e).symm),
      if_neg (fun e => h3_14 (Int.ofNat_inj.mp e).symm),
      if_neg (fun e => h4_14 (Int.ofNat_inj.mp e).symm),
      if_neg (fun e => h5_14 (Int.ofNat_inj.mp e).symm),
      if_neg (fun e => h6_14 (Int.ofNat_inj.mp e).symm),
      if_neg (fun e => h7_14 (Int.ofNat_inj.mp e).symm),
      if_neg (fun e => h8_14 (Int.ofNat_inj.mp e).symm),
      if_neg (fun e => h9_14 (Int.ofNat_inj.mp e).symm),
      if_neg (fun e => h10_14 (Int.ofNat_inj.mp e).symm),
      if_neg (fun e => h11_14 (Int.ofNat_inj.mp e).symm),
      if_neg (fun e => h12_14 (Int.ofNat_inj.mp e).symm),
      if_neg (fun e => h13_14 (Int.ofNat_inj.mp e).symm), if_pos rfl]
    rfl
  · subst en15 es15
    unfold traceCase
    rw [if_neg (fun e => h0_15 (Int.ofNat_inj.mp e).symm),
      if_neg (fun e => h1_15 (Int.ofNat_inj.mp e).symm),
      if_neg (fun e => h2_15 (Int.ofNat_inj.mp e).symm),
      if_neg (fun e => h3_15 (Int.ofNat_inj.mp e).symm),
      if_neg (fun e => h4_15 (Int.ofNat_inj.mp e).symm),
      if_neg (fun e => h5_15 (Int.ofNat_inj.mp e).symm),
      if_neg (fun e => h6_15 (Int.ofNat_inj.mp e).symm),
      if_neg (fun e => h7_15 (Int.ofNat_inj.mp e).symm),
      if_neg (fun e => h8_15 (Int.ofNat_inj.mp e).symm),
      if_neg (fun e => h9_15 (Int.ofNat_inj.mp e).symm),
      if_neg (fun e => h10_15 (Int.ofNat_inj.mp e).symm),
      if_neg (fun e => h11_15 (Int.ofNat_inj.mp e).symm),
      if_neg (fun e => h12_15 (Int.ofNat_inj.mp e).symm),
      if_neg (fun e => h13_15 (Int.ofNat_inj.mp e).symm),
      if_neg (fun e => h14_15 (Int.ofNat_inj.mp e).symm), if_pos rfl]
    rfl
  · subst en16 es16
    unfold traceCase
    rw [if_neg (fun e => h0_16 (Int.ofNat_inj.mp e).symm),
      if_neg (fun e => h1_16 (Int.ofNat_inj.mp e).symm),
      if_neg (fun e => h2_16 (Int.ofNat_inj.mp e).symm),
      if_neg (fun e => h3_16 (Int.ofNat_inj.mp e).symm),
      if_neg (fun e => h4_16 (Int.ofNat_inj.mp e).symm),
      if_neg (fun e => h5_16 (Int.ofNat_inj.mp e).symm),
      if_neg (fun e => h6_16 (Int.ofNat_inj.mp e).symm),
      if_neg (fun e => h7_16 (Int.ofNat_inj.mp e).symm),
      if_neg (fun e => h8_16 (Int.ofNat_inj.mp e).symm),
      if_neg (fun e => h9_16 (Int.ofNat_inj.mp e).symm),
      if_neg (fun e => h10_16 (Int.ofNat_inj.mp e).symm),
      if_neg (fun e => h11_16 (Int.ofNat_inj.mp e).symm),
      if_neg (fun e => h12_16 (Int.ofNat_inj.mp e).symm),
      if_neg (fun e => h13_16 (Int.ofNat_inj.mp e).symm),
      if_neg (fun e => h14_16 (Int.ofNat_inj.mp e).symm),
      if_neg (fun e => h15_16 (Int.ofNat_inj.mp e).symm), if_pos rfl]
    rfl
  · subst en17 es17
    unfold traceCase
    rw [if_neg (fun e => h0_17 (Int.ofNat_inj.mp e).symm),
      if_neg (fun e => h1_17 (Int.ofNat_inj.mp e).symm),
      if_neg (fun e => h2_17 (Int.ofNat_inj.mp e).symm),
      if_neg (fun e => h3_17 (Int.ofNat_inj.mp e).symm),
      if_neg (fun e => h4_17 (Int.ofNat_inj.mp e).symm),
      if_neg (fun e => h5_17 (Int.ofNat_inj.mp e).symm),
      if_neg (fun e => h6_17 (Int.ofNat_inj.mp e).symm),
      if_neg (fun e => h7_17 (Int.ofNat_inj.mp e).symm),
      if_neg (fun e => h8_17 (Int.ofNat_inj.mp e).symm),
      if_neg (fun e => h9_17 (Int.ofNat_inj.mp e).symm),
      if_neg (fun e => h10_17 (Int.ofNat_inj.mp e).symm),
      if_neg (fun e => h11_17 (Int.ofNat_inj.mp e).symm),
      if_neg (fun e => h12_17 (Int.ofNat_inj.mp e).symm),
      if_neg (fun e => h13_17 (Int.ofNat_inj.mp e).symm),
      if_neg (fun e => h14_17 (Int.ofNat_inj.mp e).symm),
      if_neg (fun e => h15_17 (Int.ofNat_inj.mp e).symm),
      if_neg (fun e => h16_17 (Int.ofNat_inj.mp e).symm), if_pos rfl]
    rfl
  · subst en18 es18
    unfold traceCase
    rw [if_neg (fun e => h0_18 (Int.ofNat_inj.mp e).symm),
      if_neg (fun e => h1_18 (Int.ofNat_inj.mp e).symm),
      if_neg (fun e => h2_18 (Int.ofNat_inj.mp e).symm),
      if_neg (fun e => h3_18 (Int.ofNat_inj.mp e).symm),
      if_neg (fun e => h4_18 (Int.ofNat_inj.mp e).symm),
      if_neg (fun e => h5_18 (Int.ofNat_inj.mp e).symm),
      if_neg (fun e => h6_18 (Int.ofNat_inj.mp e).symm),
      if_neg (fun e => h7_18 (Int.ofNat_inj.mp e).symm),
      if_neg (fun e => h8_18 (Int.ofNat_inj.mp e).symm),
      if_neg (fun e => h9_18 (Int.ofNat_inj.mp e).symm),
      if_neg (fun e => h10_18 (Int.ofNat_inj.mp e).symm),
      if_neg (fun e => h11_18 (Int.ofNat_inj.mp e).symm),
      if_neg (fun e => h12_18 (Int.ofNat_inj.mp e).symm),
      if_neg (fun e => h13_18 (Int.ofNat_inj.mp e).symm),
      if_neg (fun e => h14_18 (Int.ofNat_inj.mp e).symm),
      if_neg (fun e => h15_18 (Int.ofNat_inj.mp e).symm),
      if_neg (fun e => h16_18 (Int.ofNat_inj.mp e).symm),
      if_neg (fun e => h17_18 (Int.ofNat_inj.mp e).symm), if_pos rfl]
    rfl
  · subst en19 es19
    unfold traceCase
    rw [if_neg (fun e => h0_19 (Int.ofNat_inj.mp e).symm),
      if_neg (fun e => h1_19 (Int.ofNat_inj.mp e).symm),
      if_neg (fun e => h2_19 (Int.ofNat_inj.mp e).symm),
      if_neg (fun e => h3_19 (Int.ofNat_inj.mp e).symm),
      if_neg (fun e => h4_19 (Int.ofNat_inj.mp e).symm),
      if_neg (fun e => h5_19 (Int.ofNat_inj.mp e).symm),
      if_neg (fun e => h6_19 (Int.ofNat_inj.mp e).symm),
      if_neg (fun e => h7_19 (Int.ofNat_inj.mp e).symm),
      if_neg (fun e => h8_19 (Int.ofNat_inj.mp e).symm),
      if_neg (fun e => h9_19 (Int.ofNat_inj.mp e).symm),
      if_neg (fun e => h10_19 (Int.ofNat_inj.mp e).symm),
      if_neg (fun e => h11_19 (Int.ofNat_inj.mp e).symm),
      if_neg (fun e => h12_19 (Int.ofNat_inj.mp e).symm),
      if_neg (fun e => h13_19 (Int.ofNat_inj.mp e).symm),
      if_neg (fun e => h14_19 (Int.ofNat_inj.mp e).symm),
      if_neg (fun e => h15_19 (Int.ofNat_inj.mp e).symm),
      if_neg (fun e => h16_19 (Int.ofNat_inj.mp e).symm),
      if_neg (fun e => h17_19 (Int.ofNat_inj.mp e).symm),
      if_neg (fun e => h18_19 (Int.ofNat_inj.mp e).symm), if_pos rfl]
    rfl
  · subst en20 es20
    unfold traceCase
    rw [if_neg (fun e => h0_20 (Int.ofNat_inj.mp e).symm),
      if_neg (fun e => h1_20 (Int.ofNat_inj.mp e).symm),
      if_neg (fun e => h2_20 (Int.ofNat_inj.mp e).symm),
      if_neg (fun e => h3_20 (Int.ofNat_inj.mp e).symm),
      if_neg (fun e => h4_20 (Int.ofNat_inj.mp e).symm),
      if_neg (fun e => h5_20 (Int.ofNat_inj.mp e).symm),
      if_neg (fun e => h6_20 (Int.ofNat_inj.mp e).symm),
      if_neg (fun e => h7_20 (Int.ofNat_inj.mp e).symm),
      if_neg (fun e => h8_20 (Int.ofNat_inj.mp e).symm),
      if_neg (fun e => h9_20 (Int.ofNat_inj.mp e).symm),
      if_neg (fun e => h10_20 (Int.ofNat_inj.mp e).symm),
      if_neg (fun e => h11_20 (Int.ofNat_inj.mp e).symm),
      if_neg (fun e => h12_20 (Int.ofNat_inj.mp e).symm),
      if_neg (fun e => h13_20 (Int.ofNat_inj.mp e).symm),
      if_neg (fun e => h14_20 (Int.ofNat_inj.mp e).symm),
      if_neg (fun e => h15_20 (Int.ofNat_inj.mp e).symm),
      if_neg (fun e => h16_20 (Int.ofNat_inj.mp e).symm),
      if_neg (fun e => h17_20 (Int.ofNat_inj.mp e).symm),
      if_neg (fun e => h18_20 (Int.ofNat_inj.mp e).symm),
      if_neg (fun e => h19_20 (Int.ofNat_inj.mp e).symm), if_pos rfl]
    rfl
  · subst en21 es21
    unfold traceCase
    rw [if_neg (fun e => h0_21 (Int.ofNat_inj.mp e).symm),
      if_neg (fun e => h1_21 (Int.ofNat_inj.mp e).symm),
      if_neg (fun e => h2_21 (Int.ofNat_inj.mp e).symm),
      if_neg (fun e => h3_21 (Int.ofNat_inj.mp e).symm),
      if_neg (fun e => h4_21 (Int.ofNat_inj.mp e).symm),
      if_neg (fun e => h5_21 (Int.ofNat_inj.mp e).symm),
      if_neg (fun e => h6_21 (Int.ofNat_inj.mp e).symm),
      if_neg (fun e => h7_21 (Int.ofNat_inj.mp e).symm),
      if_neg (fun e => h8_21 (Int.ofNat_inj.mp e).symm),
      if_neg (fun e => h9_21 (Int.ofNat_inj.mp e).symm),
      if_neg (fun e => h10_21 (Int.ofNat_inj.mp e).symm),
      if_neg (fun e => h11_21 (Int.ofNat_inj.mp e).symm),
      if_neg (fun e => h12_21 (Int.ofNat_inj.mp e).symm),
      if_neg (fun e => h13_21 (Int.ofNat_inj.mp e).symm),
      if_neg (fun e => h14_21 (Int.ofNat_inj.mp e).symm),
      if_neg (fun e => h15_21 (Int.ofNat_inj.mp e).symm),
      if_neg (fun e => h16_21 (Int.ofNat_inj.mp e).symm),
      if_neg (fun e => h17_21 (Int.ofNat_inj.mp e).symm),
      if_neg (fun e => h18_21 (Int.ofNat_inj.mp e).symm),
      if_neg (fun e => h19_21 (Int.ofNat_inj.mp e).symm),
      if_neg (fun e => h20_21 (Int.ofNat_inj.mp e).symm), if_pos rfl]
    rfl

theorem lineEnds_append (a b : List Event) : lineEnds (a ++ b) = lineEnds a + lineEnds b := by
  simp [lineEnds, printfs_append]

theorem traceBlock_clear (c : SyscallNumbers) (num a : Int) (ret : Nat) (k : Kernel)
    (hbit : (k.proc.trace >>> num.toNat) &&& 1 = 0) : traceBlock c num a ret k = k := by
  unfold traceBlock
  rw [if_neg (by simp [hbit])]

theorem traceBlock_named (c : SyscallNumbers) (num a : Int) (ret : Nat) (k : Kernel)
    (fmt : String) (hbit : (k.proc.trace >>> num.toNat) &&& 1 ≠ 0)
    (hname : traceCase c num = some fmt) :
    traceBlock c num a ret k =
      { proc := k.proc,
        log := k.log ++ [.acquire, .printf "%d: " [.int k.proc.pid], .release,
          .printf fmt [.int a], .printf " -> %d\n" [.uint64 ret]] } := by
  unfold traceBlock
  rw [if_pos hbit, hname]
  simp [Kernel.emit]

/-- The router on a populated slot whose handler returns `r` and leaves the process `p1`. -/
theorem syscall_returning (c : SyscallNumbers) (tbl : List (Option Handler)) (k : Kernel)
    (h : Handler) (p1 : Proc) (r : Nat)
    (hpos : 0 < toInt32 k.proc.trapframe.a7)
    (hlt : toInt32 k.proc.trapframe.a7 < tbl.length)
    (hslot : readSlot tbl (toInt32 k.proc.trapframe.a7) = some (some h))
    (hret : h k.proc = some (p1, r)) :
    syscall c tbl k =
      .ok () (traceBlock c (toInt32 k.proc.trapframe.a7) (toInt32 k.proc.trapframe.a0)
        (r % 2 ^ 64)
        { proc := { p1 with trapframe := { p1.trapframe with a0 := r % 2 ^ 64 } },
          log := k.log ++ [.index (toInt32 k.proc.trapframe.a7),
            .index (toInt32 k.proc.trapframe.a7), .call (toInt32 k.proc.trapframe.a7),
            .setA0 (r % 2 ^ 64)] }) := by
  have hs := syscall_populated c tbl k h hpos hlt hslot
  rw [hret] at hs
  rw [hs]
  simp [storeA0]

/-- The router on a populated slot whose handler never returns. -/
theorem syscall_not_returning (c : SyscallNumbers) (tbl : List (Option Handler)) (k : Kernel)
    (h : Handler)
    (hpos : 0 < toInt32 k.proc.trapframe.a7)
    (hlt : toInt32 k.proc.trapframe.a7 < tbl.length)
    (hslot : readSlot tbl (toInt32 k.proc.trapframe.a7) = some (some h))
    (hret : h k.proc = none) :
    syscall c tbl k =
      .noreturn { proc := k.proc,
                  log := k.log ++ [.index (toInt32 k.proc.trapframe.a7),
                    .index (toInt32 k.proc.trapframe.a7),
                    .call (toInt32 k.proc.trapframe.a7)] } := by
  have hs := syscall_populated c tbl k h hpos hlt hslot
  rw [hret] at hs
  exact hs

/-- C13, as stated, fails: call number 1 (`SYS_fork`, which has a name) is dispatchable
and bit 1 of the mask is set, yet with a handler that never returns `syscall` prints
nothing, where the claim says exactly one line is produced. -/
theorem syscall_trace_line_counterexample :
    (0 < toInt32 (exProcWith 10 1 2).trapframe.a7 ∧
      toInt32 (exProcWith 10 1 2).trapframe.a7 < exTableNoReturn.length ∧
      ((readSlot exTableNoReturn (toInt32 (exProcWith 10 1 2).trapframe.a7)).bind id).isSome
        = true ∧
      ((exProcWith 10 1 2).trace >>> 1) &&& 1 ≠ 0 ∧
      (1, "sys_fork") ∈ traceNames exNumbers ∧
      traceCase exNumbers 1 = some "sys_fork(%d)") ∧
    syscall exNumbers exTableNoReturn ⟨exProcWith 10 1 2, []⟩
      = .noreturn ⟨exProcWith 10 1 2, [.index 1, .index 1, .call 1]⟩ ∧
    printfs (syscall exNumbers exTableNoReturn ⟨exProcWith 10 1 2, []⟩).kernel.log = [] ∧
    lineEnds (syscall exNumbers exTableNoReturn ⟨exProcWith 10 1 2, []⟩).kernel.log = 0 := by
  decide

/-- C13 (amended): for a call number `num` with a populated slot.  When the handler
returns `r` and leaves the process `p1`: if bit `num` of the mask of `p1` is clear,
`syscall` adds no `printf`, `acquire` or `release` at all; if the bit is set and `num` is
the number of a call listed with its name in `traceNames` (the case labels being
pairwise distinct), `syscall` prints exactly one line, made of three `printf` calls,
which carry the pid, the name of that call and the value `r` stored in `a0`.  When the
handler never returns, nothing is printed. -/
theorem syscall_trace_line (c : SyscallNumbers) (tbl : List (Option Handler)) (k : Kernel)
    (h : Handler)
    (hpos : 0 < toInt32 k.proc.trapframe.a7)
    (hlt : toInt32 k.proc.trapframe.a7 < tbl.length)
    (hslot : readSlot tbl (toInt32 k.proc.trapframe.a7) = some (some h)) :
    (∀ p1 r, h k.proc = some (p1, r) →
      (p1.trace >>> (toInt32 k.proc.trapframe.a7).toNat) &&& 1 = 0 →
      ∃ k', syscall c tbl k = .ok () k' ∧
        k'.log = k.log ++ [.index (toInt32 k.proc.trapframe.a7),
          .index (toInt32 k.proc.trapframe.a7), .call (toInt32 k.proc.trapframe.a7),
          .setA0 (r % 2 ^ 64)] ∧
        printfs k'.log = printfs k.log ∧ lineEnds k'.log = lineEnds k.log) ∧
    (∀ p1 r (n : Nat) (name : String), h k.proc = some (p1, r) →
      (p1.trace >>> (toInt32 k.proc.trapframe.a7).toNat) &&& 1 ≠ 0 →
      ((traceNames c).map Prod.fst).Nodup →
      toInt32 k.proc.trapframe.a7 = (n : Int) → (n, name) ∈ traceNames c →
      ∃ k', syscall c tbl k = .ok () k' ∧
        k'.proc.trapframe.a0 = r % 2 ^ 64 ∧
        k'.log = k.log ++ [.index (toInt32 k.proc.trapframe.a7),
          .index (toInt32 k.proc.trapframe.a7), .call (toInt32 k.proc.trapframe.a7),
          .setA0 (r % 2 ^ 64), .acquire, .printf "%d: " [.int p1.pid], .release,
          .printf (name ++ "(%d)") [.int (toInt32 k.proc.trapframe.a0)],
          .printf " -> %d\n" [.uint64 (r % 2 ^ 64)]] ∧
        printfs k'.log = printfs k.log ++
          [("%d: ", [.int p1.pid]),
            (name ++ "(%d)", [.int (toInt32 k.proc.trapframe.a0)]),
            (" -> %d\n", [.uint64 (r % 2 ^ 64)])] ∧
        lineEnds k'.log = lineEnds k.log + 1) ∧
    (h k.proc = none →
      syscall c tbl k =
        .noreturn { proc := k.proc,
                    log := k.log ++ [.index (toInt32 k.proc.trapframe.a7),
                      .index (toInt32 k.proc.trapframe.a7),
                      .call (toInt32 k.proc.trapframe.a7)] } ∧
      printfs (syscall c tbl k).kernel.log = printfs k.log ∧
      lineEnds (syscall c tbl k).kernel.log = lineEnds k.log) := by
  refine ⟨?_, ?_, ?_⟩
  · intro p1 r hret hbit
    have hs := syscall_returning c tbl k h p1 r hpos hlt hslot hret
    rw [traceBlock_clear c _ _ _ _ hbit] at hs
    refine ⟨_, hs, rfl, ?_, ?_⟩
    · simp [printfs_append, printfs]
    · simp [lineEnds_append, lineEnds, printfs]
  · intro p1 r n name hret hbit hd hn hmem
    have hs := syscall_returning c tbl k h p1 r hpos hlt hslot hret
    have hname : traceCase c (toInt32 k.proc.trapframe.a7) = some (name ++ "(%d)") := by
      rw [hn]
      exact traceCase_named c hd n name hmem
    rw [traceBlock_named c _ _ _ _ (name ++ "(%d)") hbit hname] at hs
    have hfmt := traceCase_no_line_end c _ (name ++ "(%d)") hname
    have h1 : (("%d: ").toList.filter fun ch => ch = Char.ofNat 10).length = 0 := by decide
    have h2 : ((" -> %d\n").toList.filter fun ch => ch = Char.ofNat 10).length = 1 := by
      decide
    refine ⟨_, hs, rfl, ?_, ?_, ?_⟩
    · simp
    · simp [printfs_append, printfs]
    · simp only [List.append_assoc, lineEnds_append]
      simp only [lineEnds, printfs, List.filterMap_cons, List.filterMap_nil, List.map_cons,
        List.map_nil, List.sum_cons, List.sum_nil, hfmt, h1, h2]
      simp
  · intro hret
    have hs := syscall_not_returning c tbl k h hpos hlt hslot hret
    refine ⟨hs, ?_, ?_⟩
    · rw [hs]
      simp [Result.kernel, printfs_append, printfs]
    · rw [hs]
      simp [Result.kernel, lineEnds_append, lineEnds, printfs]

/-- Witness for C13 (amended): call number 1 (`SYS_fork`) with bit 1 of the mask set and
a handler that returns 42. -/
theorem syscall_trace_line_witness :
    ∃ k', syscall exNumbers exTable ⟨exProcWith 10 1 2, []⟩ = .ok () k' ∧
      k'.proc.trapframe.a0 = 42 % 2 ^ 64 ∧
      k'.log = [] ++ [.index (toInt32 (exProcWith 10 1 2).trapframe.a7),
        .index (toInt32 (exProcWith 10 1 2).trapframe.a7),
        .call (toInt32 (exProcWith 10 1 2).trapframe.a7),
        .setA0 (42 % 2 ^ 64), .acquire, .printf "%d: " [.int (exProcWith 10 1 2).pid],
        .release,
        .printf ("sys_fork" ++ "(%d)") [.int (toInt32 (exProcWith 10 1 2).trapframe.a0)],
        .printf " -> %d\n" [.uint64 (42 % 2 ^ 64)]] ∧
      printfs k'.log = printfs [] ++
        [("%d: ", [.int (exProcWith 10 1 2).pid]),
          ("sys_fork" ++ "(%d)", [.int (toInt32 (exProcWith 10 1 2).trapframe.a0)]),
          (" -> %d\n", [.uint64 (42 % 2 ^ 64)])] ∧
      lineEnds k'.log = lineEnds [] + 1 :=
  (syscall_trace_line exNumbers exTable ⟨exProcWith 10 1 2, []⟩ exHandler
    (by decide) (by decide) (by rfl)).2.1
    (exProcWith 10 1 2) 42 1 "sys_fork" (by rfl) (by decide) (by decide) (by decide)
    (by decide)

end Xv6

namespace Xv6

/-- C14 fails on the code at a concrete input: call number 23 (`SYS_sysinfo`) has a
handler in the table and no case in the name switch; with bit 23 of the mask set,
`syscall` still prints the pid and the result, a line without a name, where the claim
says nothing is printed. -/
theorem syscall_unnamed_call_traced_at_input :
    ((readSlot (syscalls exNumbers exHandlers) 23).bind id).isSome = true ∧
    traceCase exNumbers 23 = none ∧
    (syscall exNumbers (syscalls exNumbers exHandlers)
        ⟨exProcWith 10 23 (2 ^ 23), []⟩).kernel.log
      = [.index 23, .index 23, .call 23, .setA0 42, .acquire, .printf "%d: " [.int 3],
          .release, .printf " -> %d\n" [.uint64 42]] ∧
    printfs (syscall exNumbers (syscalls exNumbers exHandlers)
        ⟨exProcWith 10 23 (2 ^ 23), []⟩).kernel.log
      = [("%d: ", [.int 3]), (" -> %d\n", [.uint64 42])] ∧
    printfs (syscall exNumbers (syscalls exNumbers exHandlers)
        ⟨exProcWith 10 23 0, []⟩).kernel.log = [] := by
  decide

/-- The four ways a run of the router can go. -/
theorem syscall_cases (c : SyscallNumbers) (tbl : List (Option Handler)) (k : Kernel) :
    (¬ (0 < toInt32 k.proc.trapframe.a7 ∧ toInt32 k.proc.trapframe.a7 < tbl.length) ∧
      syscall c tbl k = .ok () (unknownCall (toInt32 k.proc.trapframe.a7) k)) ∨
    ((0 < toInt32 k.proc.trapframe.a7 ∧ toInt32 k.proc.trapframe.a7 < tbl.length) ∧
      readSlot tbl (toInt32 k.proc.trapframe.a7) = some none ∧
      syscall c tbl k = .ok () (unknownCall (toInt32 k.proc.trapframe.a7)
        (k.emit (.index (toInt32 k.proc.trapframe.a7))))) ∨
    (∃ h, (0 < toInt32 k.proc.trapframe.a7 ∧ toInt32 k.proc.trapframe.a7 < tbl.length) ∧
      readSlot tbl (toInt32 k.proc.trapframe.a7) = some (some h) ∧ h k.proc = none ∧
      syscall c tbl k =
        .noreturn { proc := k.proc,
                    log := k.log ++ [.index (toInt32 k.proc.trapframe.a7),
                      .index (toInt32 k.proc.trapframe.a7),
                      .call (toInt32 k.proc.trapframe.a7)] }) ∨
    (∃ h p1 r,
      (0 < toInt32 k.proc.trapframe.a7 ∧ toInt32 k.proc.trapframe.a7 < tbl.length) ∧
      readSlot tbl (toInt32 k.proc.trapframe.a7) = some (some h) ∧ h k.proc = some (p1, r) ∧
      syscall c tbl k =
        .ok () (traceBlock c (toInt32 k.proc.trapframe.a7) (toInt32 k.proc.trapframe.a0)
          (r % 2 ^ 64)
          { proc := { p1 with trapframe := { p1.trapframe with a0 := r % 2 ^ 64 } },
            log := k.log ++ [.index (toInt32 k.proc.trapframe.a7),
              .index (toInt32 k.proc.trapframe.a7), .call (toInt32 k.proc.trapframe.a7),
              .setA0 (r % 2 ^ 64)] })) := by
  by_cases hr : 0 < toInt32 k.proc.trapframe.a7 ∧ toInt32 k.proc.trapframe.a7 < tbl.length
  · obtain ⟨slot, hslot⟩ := readSlot_in_range tbl _ hr.1 hr.2
    cases slot with
    | none => exact Or.inr (Or.inl ⟨hr, hslot, syscall_empty_slot c tbl k hr.1 hr.2 hslot⟩)
    | some h =>
      cases hh : h k.proc with
      | none =>
        exact Or.inr (Or.inr (Or.inl
          ⟨h, hr, hslot, hh, syscall_not_returning c tbl k h hr.1 hr.2 hslot hh⟩))
      | some pr =>
        obtain ⟨p1, r⟩ := pr
        exact Or.inr (Or.inr (Or.inr
          ⟨h, p1, r, hr, hslot, hh, syscall_returning c tbl k h p1 r hr.1 hr.2 hslot hh⟩))
  · exact Or.inl ⟨hr, syscall_out_of_range c tbl k hr⟩

/-- The table reads and the calls of a run, as a function of the narrowed call number. -/
theorem syscall_reads_calls (c : SyscallNumbers) (tbl : List (Option Handler)) (k : Kernel) :
    indexReads (syscall c tbl k).kernel.log = indexReads k.log ++
      (if 0 < toInt32 k.proc.trapframe.a7 ∧ toInt32 k.proc.trapframe.a7 < tbl.length then
        match readSlot tbl (toInt32 k.proc.trapframe.a7) with
        | some (some _) => [toInt32 k.proc.trapframe.a7, toInt32 k.proc.trapframe.a7]
        | _ => [toInt32 k.proc.trapframe.a7]
      else []) ∧
    callsMade (syscall c tbl k).kernel.log = callsMade k.log ++
      (if 0 < toInt32 k.proc.trapframe.a7 ∧ toInt32 k.proc.trapframe.a7 < tbl.length then
        match readSlot tbl (toInt32 k.proc.trapframe.a7) with
        | some (some _) => [toInt32 k.proc.trapframe.a7]
        | _ => []
      else []) := by
  rcases syscall_cases c tbl k with ⟨hr, hs⟩ | ⟨hr, hslot, hs⟩ | ⟨h, hr, hslot, _, hs⟩ |
    ⟨h, p1, r, hr, hslot, _, hs⟩
  · rw [hs, if_neg hr, if_neg hr]
    simp [Result.kernel, unknownCall_log, indexReads_append, callsMade_append, indexReads,
      callsMade]
  · rw [hs, if_pos hr, if_pos hr, hslot]
    simp [Result.kernel, unknownCall_log, indexReads_append, callsMade_append, indexReads,
      callsMade]
  · rw [hs, if_pos hr, if_pos hr, hslot]
    simp [Result.kernel, indexReads_append, callsMade_append, indexReads, callsMade]
  · obtain ⟨evs, hlog, hidx, hcalls, _⟩ :=
      traceBlock_log c (toInt32 k.proc.trapframe.a7) (toInt32 k.proc.trapframe.a0)
        (r % 2 ^ 64)
        { proc := { p1 with trapframe := { p1.trapframe with a0 := r % 2 ^ 64 } },
          log := k.log ++ [.index (toInt32 k.proc.trapframe.a7),
            .index (toInt32 k.proc.trapframe.a7), .call (toInt32 k.proc.trapframe.a7),
            .setA0 (r % 2 ^ 64)] }
    rw [hs, if_pos hr, if_pos hr, hslot]
    simp only [Result.kernel]
    rw [hlog]
    simp only [indexReads_append, callsMade_append, hidx, hcalls, List.append_nil]
    simp [indexReads, callsMade]

end Xv6

namespace Xv6

/-- C15, as stated, fails: in the run on call number 1 of `exTableNoReturn`, whose handler
never returns, `syscall` makes no store to `a0` at all, where the claim says every run
makes exactly one. -/
theorem syscall_single_store_counterexample :
    syscall exNumbers exTableNoReturn ⟨exProc, []⟩
      = .noreturn ⟨exProc, [.index 1, .index 1, .call 1]⟩ ∧
    storesA0 (syscall exNumbers exTableNoReturn ⟨exProc, []⟩).kernel.log = [] ∧
    (storesA0 (syscall exNumbers exTableNoReturn ⟨exProc, []⟩).kernel.log).length ≠ 1 := by
  decide

/-- C15 (amended): every run of `syscall` that returns has made exactly one store to
`a0`; on the unknown-call path `syscall` returns and that store is the sentinel; on the dispatch path,
when the handler returns `r` and leaves the process `p1`, `syscall` returns, the store
comes right after the call through the table, is applied to `p1`, and everything logged
after it (the trace output) holds no further store, call or table read; and when the
handler never returns there is no store at all. -/
theorem syscall_single_store (c : SyscallNumbers) (tbl : List (Option Handler))
    (k : Kernel) :
    (∀ k', syscall c tbl k = .ok () k' →
      ∃ evs, k'.log = k.log ++ evs ∧ (storesA0 evs).length = 1) ∧
    (¬ (0 < toInt32 k.proc.trapframe.a7 ∧ toInt32 k.proc.trapframe.a7 < tbl.length ∧
        ∃ h, readSlot tbl (toInt32 k.proc.trapframe.a7) = some (some h)) →
      ∃ k', syscall c tbl k = .ok () k' ∧
        storesA0 k'.log = storesA0 k.log ++ [2 ^ 64 - 1]) ∧
    (∀ h p1 r, 0 < toInt32 k.proc.trapframe.a7 →
      toInt32 k.proc.trapframe.a7 < tbl.length →
      readSlot tbl (toInt32 k.proc.trapframe.a7) = some (some h) →
      h k.proc = some (p1, r) →
      ∃ k' post, syscall c tbl k = .ok () k' ∧
        k'.proc = { p1 with trapframe := { p1.trapframe with a0 := r % 2 ^ 64 } } ∧
        k'.log = k.log ++ [.index (toInt32 k.proc.trapframe.a7),
          .index (toInt32 k.proc.trapframe.a7), .call (toInt32 k.proc.trapframe.a7),
          .setA0 (r % 2 ^ 64)] ++ post ∧
        storesA0 post = [] ∧ callsMade post = [] ∧ indexReads post = []) ∧
    (∀ h, 0 < toInt32 k.proc.trapframe.a7 →
      toInt32 k.proc.trapframe.a7 < tbl.length →
      readSlot tbl (toInt32 k.proc.trapframe.a7) = some (some h) →
      h k.proc = none →
      storesA0 (syscall c tbl k).kernel.log = storesA0 k.log) := by
  refine ⟨?_, ?_, ?_, ?_⟩
  · intro k' hk
    rcases syscall_cases c tbl k with ⟨_, hs⟩ | ⟨_, _, hs⟩ | ⟨h, _, _, _, hs⟩ |
      ⟨h, p1, r, _, _, _, hs⟩
    · rw [hs] at hk
      cases hk
      exact ⟨_, unknownCall_log _ _, by simp [storesA0]⟩
    · rw [hs] at hk
      cases hk
      refine ⟨[.index (toInt32 k.proc.trapframe.a7),
        .printf "%d %s: unknown sys call %d\n"
          [.int k.proc.pid, .str k.proc.name, .int (toInt32 k.proc.trapframe.a7)],
        .setA0 (2 ^ 64 - 1)], ?_, by simp [storesA0]⟩
      rw [unknownCall_log]
      simp
    · rw [hs] at hk
      cases hk
    · obtain ⟨evs, hlog, _, _, hst⟩ :=
        traceBlock_log c (toInt32 k.proc.trapframe.a7) (toInt32 k.proc.trapframe.a0)
          (r % 2 ^ 64)
          { proc := { p1 with trapframe := { p1.trapframe with a0 := r % 2 ^ 64 } },
            log := k.log ++ [.index (toInt32 k.proc.trapframe.a7),
              .index (toInt32 k.proc.trapframe.a7), .call (toInt32 k.proc.trapframe.a7),
              .setA0 (r % 2 ^ 64)] }
      rw [hs] at hk
      cases hk
      refine ⟨[.index (toInt32 k.proc.trapframe.a7), .index (toInt32 k.proc.trapframe.a7),
        .call (toInt32 k.proc.trapframe.a7), .setA0 (r % 2 ^ 64)] ++ evs, ?_, ?_⟩
      · rw [hlog]
        simp
      · rw [storesA0_append, hst]
        simp [storesA0]
  · intro hunk
    rcases syscall_cases c tbl k with ⟨_, hs⟩ | ⟨_, _, hs⟩ | ⟨h, hr, hslot, _, _⟩ |
      ⟨h, p1, r, hr, hslot, _, _⟩
    · refine ⟨_, hs, ?_⟩
      rw [unknownCall_log, storesA0_append]
      simp [storesA0]
    · refine ⟨_, hs, ?_⟩
      rw [unknownCall_log, storesA0_append]
      simp [storesA0, storesA0_append]
    · exact absurd ⟨hr.1, hr.2, h, hslot⟩ hunk
    · exact absurd ⟨hr.1, hr.2, h, hslot⟩ hunk
  · intro h p1 r hpos hlt hslot hret
    have hs := syscall_returning c tbl k h p1 r hpos hlt hslot hret
    obtain ⟨evs, hlog, hidx, hcalls, hst⟩ :=
      traceBlock_log c (toInt32 k.proc.trapframe.a7) (toInt32 k.proc.trapframe.a0)
        (r % 2 ^ 64)
        { proc := { p1 with trapframe := { p1.trapframe with a0 := r % 2 ^ 64 } },
          log := k.log ++ [.index (toInt32 k.proc.trapframe.a7),
            .index (toInt32 k.proc.trapframe.a7), .call (toInt32 k.proc.trapframe.a7),
            .setA0 (r % 2 ^ 64)] }
    exact ⟨_, evs, hs, traceBlock_proc _ _ _ _ _, hlog, hst, hcalls, hidx⟩
  · intro h hpos hlt hslot hret
    rw [syscall_not_returning c tbl k h hpos hlt hslot hret]
    simp [Result.kernel, storesA0_append, storesA0]

/-- Witness for C15 (amended): call number 7 on `exTable` (unknown call) and call number 1 on
`exTable` (dispatch to `exHandler`). -/
theorem syscall_single_store_witness :
    (∃ k', syscall exNumbers exTable ⟨exProcCalling 7, []⟩ = .ok () k' ∧
      storesA0 k'.log = storesA0 [] ++ [2 ^ 64 - 1]) ∧
    (∃ k' post, syscall exNumbers exTable ⟨exProc, []⟩ = .ok () k' ∧
      k'.proc = { exProc with trapframe := { exProc.trapframe with a0 := 42 % 2 ^ 64 } } ∧
      k'.log = [] ++ [.index (toInt32 exProc.trapframe.a7),
        .index (toInt32 exProc.trapframe.a7), .call (toInt32 exProc.trapframe.a7),
        .setA0 (42 % 2 ^ 64)] ++ post ∧
      storesA0 post = [] ∧ callsMade post = [] ∧ indexReads post = []) :=
  ⟨(syscall_single_store exNumbers exTable ⟨exProcCalling 7, []⟩).2.1
      (fun h => absurd h.2.1 (by decide)),
    (syscall_single_store exNumbers exTable ⟨exProc, []⟩).2.2.1 exHandler exProc 42
      (by decide) (by decide) (by rfl) (by rfl)⟩

/-- C17: on the unknown-call path (the `int` call number is not positive, or is not below
the table length, or selects a null slot) `syscall` returns, so it does not panic, and the
process it leaves differs from the one it found in the slot `a0` only: `a1..a5`, `a7`,
`sz`, `pagetable`, the trace mask, `pid` and `name` are as before. -/
theorem syscall_unknown_frame (c : SyscallNumbers) (tbl : List (Option Handler))
    (k : Kernel)
    (hunk : ¬ (0 < toInt32 k.proc.trapframe.a7 ∧ toInt32 k.proc.trapframe.a7 < tbl.length ∧
      ∃ h, readSlot tbl (toInt32 k.proc.trapframe.a7) = some (some h))) :
    (∀ msg k', syscall c tbl k ≠ .panic msg k') ∧
    ∃ k', syscall c tbl k = .ok () k' ∧
      k'.proc = { k.proc with trapframe := { k.proc.trapframe with a0 := 2 ^ 64 - 1 } } ∧
      k'.proc.trapframe.a0 = 2 ^ 64 - 1 ∧
      k'.proc.trapframe.a1 = k.proc.trapframe.a1 ∧
      k'.proc.trapframe.a2 = k.proc.trapframe.a2 ∧
      k'.proc.trapframe.a3 = k.proc.trapframe.a3 ∧
      k'.proc.trapframe.a4 = k.proc.trapframe.a4 ∧
      k'.proc.trapframe.a5 = k.proc.trapframe.a5 ∧
      k'.proc.trapframe.a7 = k.proc.trapframe.a7 ∧
      k'.proc.sz = k.proc.sz ∧ k'.proc.pagetable = k.proc.pagetable ∧
      k'.proc.trace = k.proc.trace ∧ k'.proc.pid = k.proc.pid ∧
      k'.proc.name = k.proc.name := by
  have hproc : ∀ k0 : Kernel, k0.proc = k.proc →
      (unknownCall (toInt32 k.proc.trapframe.a7) k0).proc =
        { k.proc with trapframe := { k.proc.trapframe with a0 := 2 ^ 64 - 1 } } := by
    intro k0 h0
    simp [unknownCall, storeA0, toUint64_neg_one, h0]
  rcases syscall_cases c tbl k with ⟨_, hs⟩ | ⟨_, _, hs⟩ | ⟨h, hr, hslot, _, _⟩ |
    ⟨h, p1, r, hr, hslot, _, _⟩
  · refine ⟨(fun msg k' hk => by rw [hs] at hk; cases hk), _, hs, hproc k rfl, ?_⟩
    rw [hproc k rfl]
    exact ⟨rfl, rfl, rfl, rfl, rfl, rfl, rfl, rfl, rfl, rfl, rfl, rfl⟩
  · refine ⟨(fun msg k' hk => by rw [hs] at hk; cases hk), _, hs, hproc _ rfl, ?_⟩
    rw [hproc (k.emit (.index (toInt32 k.proc.trapframe.a7))) rfl]
    exact ⟨rfl, rfl, rfl, rfl, rfl, rfl, rfl, rfl, rfl, rfl, rfl, rfl⟩
  · exact absurd ⟨hr.1, hr.2, h, hslot⟩ hunk
  · exact absurd ⟨hr.1, hr.2, h, hslot⟩ hunk

/-- Witness for C17: call number 0 on `exTable`. -/
theorem syscall_unknown_frame_witness :
    (∀ msg k', syscall exNumbers exTable ⟨exProcCalling 0, []⟩ ≠ .panic msg k') ∧
    ∃ k', syscall exNumbers exTable ⟨exProcCalling 0, []⟩ = .ok () k' ∧
      k'.proc = { exProcCalling 0 with
        trapframe := { (exProcCalling 0).trapframe with a0 := 2 ^ 64 - 1 } } ∧
      k'.proc.trapframe.a0 = 2 ^ 64 - 1 ∧
      k'.proc.trapframe.a1 = (exProcCalling 0).trapframe.a1 ∧
      k'.proc.trapframe.a2 = (exProcCalling 0).trapframe.a2 ∧
      k'.proc.trapframe.a3 = (exProcCalling 0).trapframe.a3 ∧
      k'.proc.trapframe.a4 = (exProcCalling 0).trapframe.a4 ∧
      k'.proc.trapframe.a5 = (exProcCalling 0).trapframe.a5 ∧
      k'.proc.trapframe.a7 = (exProcCalling 0).trapframe.a7 ∧
      k'.proc.sz = (exProcCalling 0).sz ∧ k'.proc.pagetable = (exProcCalling 0).pagetable ∧
      k'.proc.trace = (exProcCalling 0).trace ∧ k'.proc.pid = (exProcCalling 0).pid ∧
      k'.proc.name = (exProcCalling 0).name :=
  syscall_unknown_frame exNumbers exTable ⟨exProcCalling 0, []⟩
    (fun h => absurd h.1 (by decide))

end Xv6

namespace Xv6

/-- C18: two kernel states that differ only in `a7`, with the same low 32 bits there, are
routed alike: the `int` call number is the same, and `syscall` reads the same table slots
and calls through the same slot in both; in particular, for a table an `int` can index
and a slot `j` holding a handler, `a7 = 2^32 + j` is dispatched to that handler, whose
return value ends up in `a0`, and is not reported as unknown. -/
theorem syscall_routes_on_low_bits (c : SyscallNumbers) (tbl : List (Option Handler))
    (k : Kernel) (a7' : Nat)
    (hlow : a7' % 2 ^ 32 = k.proc.trapframe.a7 % 2 ^ 32) :
    toInt32 a7' = toInt32 k.proc.trapframe.a7 ∧
    indexReads (syscall c tbl (k.withA7 a7')).kernel.log
      = indexReads (syscall c tbl k).kernel.log ∧
    callsMade (syscall c tbl (k.withA7 a7')).kernel.log
      = callsMade (syscall c tbl k).kernel.log ∧
    (∀ (j : Nat) (h : Handler), 0 < j → j < tbl.length → tbl.length ≤ 2 ^ 31 →
      readSlot tbl (j : Int) = some (some h) → a7' = 2 ^ 32 + j →
      callsMade (syscall c tbl (k.withA7 a7')).kernel.log = callsMade k.log ++ [(j : Int)] ∧
      ∀ p1 r, h (k.withA7 a7').proc = some (p1, r) →
        ∃ k', syscall c tbl (k.withA7 a7') = .ok () k' ∧
          k'.proc = { p1 with trapframe := { p1.trapframe with a0 := r % 2 ^ 64 } } ∧
          k'.proc.trapframe.a0 = r % 2 ^ 64) := by
  have hnum : toInt32 a7' = toInt32 k.proc.trapframe.a7 := by
    unfold toInt32
    rw [hlow]
  have hnum2 : toInt32 (k.withA7 a7').proc.trapframe.a7 = toInt32 k.proc.trapframe.a7 := hnum
  have hlog2 : (k.withA7 a7').log = k.log := rfl
  have h1 := syscall_reads_calls c tbl (k.withA7 a7')
  have h2 := syscall_reads_calls c tbl k
  rw [hnum2, hlog2] at h1
  refine ⟨hnum, h1.1.trans h2.1.symm, h1.2.trans h2.2.symm, ?_⟩
  intro j h hj0 hjlt hlen hslot ha7
  have hj : toInt32 a7' = (j : Int) := by
    rw [ha7]
    unfold toInt32
    have hm : (2 ^ 32 + j) % 2 ^ 32 = j := by omega
    rw [hm, if_pos (by omega)]
  have hjk : toInt32 (k.withA7 a7').proc.trapframe.a7 = (j : Int) := hj
  have hpos : 0 < toInt32 (k.withA7 a7').proc.trapframe.a7 := by
    rw [hjk]
    omega
  have hlt : toInt32 (k.withA7 a7').proc.trapframe.a7 < tbl.length := by
    rw [hjk]
    omega
  have hslot' : readSlot tbl (toInt32 (k.withA7 a7').proc.trapframe.a7) = some (some h) := by
    rw [hjk]
    exact hslot
  constructor
  · have hc := (syscall_reads_calls c tbl (k.withA7 a7')).2
    rw [if_pos ⟨hpos, hlt⟩, hslot', hjk] at hc
    exact hc
  · intro p1 r hret
    have hs := syscall_returning c tbl (k.withA7 a7') h p1 r hpos hlt hslot' hret
    refine ⟨_, hs, traceBlock_proc _ _ _ _ _, ?_⟩
    rw [traceBlock_proc]

/-- Witness for C18: `a7 = 1` against `a7 = 2^32 + 1` on `exTable`. -/
theorem syscall_routes_on_low_bits_witness :
    ((2 ^ 32 + 1) % 2 ^ 32 = (⟨exProc, []⟩ : Kernel).proc.trapframe.a7 % 2 ^ 32) ∧
    toInt32 (2 ^ 32 + 1) = toInt32 (⟨exProc, []⟩ : Kernel).proc.trapframe.a7 ∧
    indexReads (syscall exNumbers exTable
        ((⟨exProc, []⟩ : Kernel).withA7 (2 ^ 32 + 1))).kernel.log
      = indexReads (syscall exNumbers exTable ⟨exProc, []⟩).kernel.log ∧
    callsMade (syscall exNumbers exTable
        ((⟨exProc, []⟩ : Kernel).withA7 (2 ^ 32 + 1))).kernel.log
      = callsMade (syscall exNumbers exTable ⟨exProc, []⟩).kernel.log ∧
    callsMade (syscall exNumbers exTable
        ((⟨exProc, []⟩ : Kernel).withA7 (2 ^ 32 + 1))).kernel.log
      = callsMade (⟨exProc, []⟩ : Kernel).log ++ [((1 : Nat) : Int)] :=
  ⟨by decide,
    (syscall_routes_on_low_bits exNumbers exTable ⟨exProc, []⟩ (2 ^ 32 + 1) (by decide)).1,
    (syscall_routes_on_low_bits exNumbers exTable ⟨exProc, []⟩ (2 ^ 32 + 1) (by decide)).2.1,
    (syscall_routes_on_low_bits exNumbers exTable ⟨exProc, []⟩ (2 ^ 32 + 1) (by decide)).2.2.1,
    ((syscall_routes_on_low_bits exNumbers exTable ⟨exProc, []⟩ (2 ^ 32 + 1)
      (by decide)).2.2.2 1 exHandler (by decide) (by decide) (by decide) (by rfl)
      (by rfl)).1⟩

end Xv6
